import Mathlib

set_option maxHeartbeats 1000000
set_option maxRecDepth 8000

/- Shallow embedding of the patient-symptom analysis system
   (src/data_processor.py, src/symptom_analyzer.py, src/preprocess.py).

   The `summary` column of the loaded dataset is modelled as `List (Option String)`,
   one cell per row, `none` standing for a missing (NaN) cell.  The quasi-JSON
   parsing `json.loads(summary_str.replace("'", '"'))` is modelled by a fuelled
   JSON parser producing `JVal`.  Python dynamic-type errors (AttributeError /
   TypeError) that the surrounding `try/except` blocks catch are modelled by
   `Option`: `none` means the row raised and was skipped. -/

/-- JSON values as produced by a `json.loads` call.  Python dict insertion order
is kept by representing objects as association lists with unique keys. -/
inductive JVal where
  | str (s : String)
  | num (q : ℚ)
  | bool (b : Bool)
  | null
  | arr (xs : List JVal)
  | obj (kvs : List (String × JVal))

/-- The left-brace character, written by code point. -/
def lbrace : Char := Char.ofNat 123

/-- The right-brace character, written by code point. -/
def rbrace : Char := Char.ofNat 125

/-- The single-quote character, written by code point. -/
def squote : Char := Char.ofNat 39

/-- JSON inter-token whitespace. -/
def jsonWs (c : Char) : Bool :=
  c == ' ' || c == '\t' || c == '\n' || c == '\r'

/-- Skip JSON whitespace. -/
def skipWs : List Char → List Char
  | [] => []
  | c :: cs => if jsonWs c then skipWs cs else c :: cs

/-- Value of one hexadecimal digit. -/
def hexVal? (c : Char) : Option Nat :=
  if '0' ≤ c ∧ c ≤ '9' then some (c.toNat - 48)
  else if 'a' ≤ c ∧ c ≤ 'f' then some (c.toNat - 87)
  else if 'A' ≤ c ∧ c ≤ 'F' then some (c.toNat - 55)
  else none

/-- Parse the body of a JSON string after the opening quote; returns the decoded
characters and the remaining input.  Mirrors the strict `json` decoder: raw
control characters and unknown escapes are errors. -/
def pStrAux : List Char → List Char → Option (List Char × List Char)
  | _, [] => none
  | acc, c :: cs =>
    if c = '"' then some (acc.reverse, cs)
    else if c = '\\' then
      match cs with
      | [] => none
      | 'u' :: h1 :: h2 :: h3 :: h4 :: cs3 =>
        match hexVal? h1, hexVal? h2, hexVal? h3, hexVal? h4 with
        | some a, some b, some c4, some d =>
          pStrAux (Char.ofNat (((a * 16 + b) * 16 + c4) * 16 + d) :: acc) cs3
        | _, _, _, _ => none
      | e :: cs2 =>
        if e = '"' then pStrAux ('"' :: acc) cs2
        else if e = '\\' then pStrAux ('\\' :: acc) cs2
        else if e = '/' then pStrAux ('/' :: acc) cs2
        else if e = 'b' then pStrAux (Char.ofNat 8 :: acc) cs2
        else if e = 'f' then pStrAux (Char.ofNat 12 :: acc) cs2
        else if e = 'n' then pStrAux ('\n' :: acc) cs2
        else if e = 'r' then pStrAux ('\r' :: acc) cs2
        else if e = 't' then pStrAux ('\t' :: acc) cs2
        else none
    else if c.toNat < 32 then none
    else pStrAux (c :: acc) cs

/-- Take a maximal run of decimal digits. -/
def spanDigits : List Char → List Char × List Char
  | [] => ([], [])
  | c :: cs =>
    if c.isDigit then
      let p := spanDigits cs
      (c :: p.1, p.2)
    else ([], c :: cs)

/-- Numeric value of a digit run. -/
def natOfDigits (ds : List Char) : Nat :=
  ds.foldl (fun n c => n * 10 + (c.toNat - 48)) 0

/-- Optional fraction part of a JSON number. -/
def pFrac : List Char → Option (ℚ × List Char)
  | '.' :: cs =>
    match spanDigits cs with
    | ([], _) => none
    | (ds, rest) => some ((natOfDigits ds : ℚ) / ((10 : ℚ) ^ ds.length), rest)
  | cs => some (0, cs)

/-- Signed exponent digits after the `e` marker. -/
def pExpSign : List Char → Option (ℤ × List Char)
  | '+' :: cs =>
    (match spanDigits cs with
     | ([], _) => none
     | (ds, rest) => some ((natOfDigits ds : ℤ), rest))
  | '-' :: cs =>
    (match spanDigits cs with
     | ([], _) => none
     | (ds, rest) => some (-(natOfDigits ds : ℤ), rest))
  | cs =>
    match spanDigits cs with
    | ([], _) => none
    | (ds, rest) => some ((natOfDigits ds : ℤ), rest)

/-- Optional exponent part of a JSON number. -/
def pExp : List Char → Option (ℤ × List Char)
  | 'e' :: cs => pExpSign cs
  | 'E' :: cs => pExpSign cs
  | cs => some (0, cs)

/-- Parse a JSON number (sign, integer part with no leading zeros, optional
fraction and exponent) into an exact rational. -/
def pNumCore (cs : List Char) : Option (ℚ × List Char) :=
  let p := match cs with | '-' :: t => (true, t) | t => (false, t)
  match spanDigits p.2 with
  | ([], _) => none
  | (ds, cs2) =>
    if 1 < ds.length ∧ ds.headD '0' = '0' then none
    else
      match pFrac cs2 with
      | none => none
      | some (fr, cs3) =>
        match pExp cs3 with
        | none => none
        | some (ex, cs4) =>
          let mag : ℚ := ((natOfDigits ds : ℚ) + fr) * (10 : ℚ) ^ ex
          some (if p.1 then -mag else mag, cs4)

/-- Insert a key into an object the way a Python dict does: replace the value
in place if the key exists, otherwise append. -/
def objInsert : List (String × JVal) → String → JVal → List (String × JVal)
  | [], k, v => [(k, v)]
  | (k0, v0) :: rest, k, v =>
    if k0 = k then (k0, v) :: rest else (k0, v0) :: objInsert rest k v

mutual

/-- Parse one JSON value (fuelled). -/
def pVal : Nat → List Char → Option (JVal × List Char)
  | 0, _ => none
  | f + 1, cs0 =>
    match skipWs cs0 with
    | [] => none
    | c :: cs =>
      if c = lbrace then
        match skipWs cs with
        | [] => none
        | c2 :: cs2 =>
          if c2 = rbrace then some (JVal.obj [], cs2)
          else pMembers f [] (c2 :: cs2)
      else if c = '[' then
        match skipWs cs with
        | [] => none
        | c2 :: cs2 =>
          if c2 = ']' then some (JVal.arr [], cs2)
          else pElems f [] (c2 :: cs2)
      else if c = '"' then
        match pStrAux [] cs with
        | none => none
        | some (chars, rest) => some (JVal.str (String.mk chars), rest)
      else if c = 't' then
        match cs with
        | 'r' :: 'u' :: 'e' :: r => some (JVal.bool true, r)
        | _ => none
      else if c = 'f' then
        match cs with
        | 'a' :: 'l' :: 's' :: 'e' :: r => some (JVal.bool false, r)
        | _ => none
      else if c = 'n' then
        match cs with
        | 'u' :: 'l' :: 'l' :: r => some (JVal.null, r)
        | _ => none
      else
        match pNumCore (c :: cs) with
        | none => none
        | some (q, rest) => some (JVal.num q, rest)

/-- Parse the members of an object, positioned at a key string. -/
def pMembers : Nat → List (String × JVal) → List Char → Option (JVal × List Char)
  | 0, _, _ => none
  | f + 1, acc, cs =>
    match cs with
    | '"' :: cs1 =>
      (match pStrAux [] cs1 with
       | none => none
       | some (kChars, cs2) =>
         match skipWs cs2 with
         | ':' :: cs3 =>
           (match pVal f cs3 with
            | none => none
            | some (v, cs4) =>
              let acc2 := objInsert acc (String.mk kChars) v
              match skipWs cs4 with
              | [] => none
              | c5 :: cs5 =>
                if c5 = ',' then pMembers f acc2 (skipWs cs5)
                else if c5 = rbrace then some (JVal.obj acc2, cs5)
                else none)
         | _ => none)
    | _ => none

/-- Parse the elements of an array, positioned at a value. -/
def pElems : Nat → List JVal → List Char → Option (JVal × List Char)
  | 0, _, _ => none
  | f + 1, acc, cs =>
    match pVal f cs with
    | none => none
    | some (v, cs1) =>
      match skipWs cs1 with
      | [] => none
      | c2 :: cs2 =>
        if c2 = ',' then pElems f (acc ++ [v]) cs2
        else if c2 = ']' then some (JVal.arr (acc ++ [v]), cs2)
        else none

end

/-- Model of `json.loads`: parse a complete JSON document (whitespace around
the single top-level value allowed, nothing else trailing). -/
def parseJson (s : String) : Option JVal :=
  match pVal (2 * s.data.length + 2) s.data with
  | none => none
  | some (v, rest) => if skipWs rest = [] then some v else none

/-- Model of `summary_str.replace("'", '"')`: every single quote becomes a
double quote. -/
def pySingleToDouble (s : String) : String :=
  String.mk (s.data.map (fun c => if c = squote then '"' else c))

/-- Drop leading whitespace characters. -/
def dropWs : List Char → List Char
  | [] => []
  | c :: cs => if c.isWhitespace then dropWs cs else c :: cs

/-- Model of Python `str.strip()`: remove whitespace from both ends. -/
def pyStrip (s : String) : String :=
  String.mk ((dropWs ((dropWs s.data).reverse)).reverse)

/-- Maximal codepoint ranges matched by the Unicode-aware word class `\w` of
Python's `re` module (categories L*, Nd, Nl, No, plus the underscore), as
extracted from the CPython 3.11 Unicode database.  `CountVectorizer`'s token
pattern `\b\w+\b` tokenizes with exactly this class. -/
def pyWordRanges : List (Nat × Nat) :=
  [(48, 57), (65, 90), (95, 95), (97, 122), (170, 170), (178, 179), (181, 181), (185, 186), 
   (188, 190), (192, 214), (216, 246), (248, 705), (710, 721), (736, 740), (748, 748), 
   (750, 750), (880, 884), (886, 887), (890, 893), (895, 895), (902, 902), (904, 906), 
   (908, 908), (910, 929), (931, 1013), (1015, 1153), (1162, 1327), (1329, 1366), (1369, 1369), 
   (1376, 1416), (1488, 1514), (1519, 1522), (1568, 1610), (1632, 1641), (1646, 1647), 
   (1649, 1747), (1749, 1749), (1765, 1766), (1774, 1788), (1791, 1791), (1808, 1808), 
   (1810, 1839), (1869, 1957), (1969, 1969), (1984, 2026), (2036, 2037), (2042, 2042), 
   (2048, 2069), (2074, 2074), (2084, 2084), (2088, 2088), (2112, 2136), (2144, 2154), 
   (2160, 2183), (2185, 2190), (2208, 2249), (2308, 2361), (2365, 2365), (2384, 2384), 
   (2392, 2401), (2406, 2415), (2417, 2432), (2437, 2444), (2447, 2448), (2451, 2472), 
   (2474, 2480), (2482, 2482), (2486, 2489), (2493, 2493), (2510, 2510), (2524, 2525), 
   (2527, 2529), (2534, 2545), (2548, 2553), (2556, 2556), (2565, 2570), (2575, 2576), 
   (2579, 2600), (2602, 2608), (2610, 2611), (2613, 2614), (2616, 2617), (2649, 2652), 
   (2654, 2654), (2662, 2671), (2674, 2676), (2693, 2701), (2703, 2705), (2707, 2728), 
   (2730, 2736), (2738, 2739), (2741, 2745), (2749, 2749), (2768, 2768), (2784, 2785), 
   (2790, 2799), (2809, 2809), (2821, 2828), (2831, 2832), (2835, 2856), (2858, 2864), 
   (2866, 2867), (2869, 2873), (2877, 2877), (2908, 2909), (2911, 2913), (2918, 2927), 
   (2929, 2935), (2947, 2947), (2949, 2954), (2958, 2960), (2962, 2965), (2969, 2970), 
   (2972, 2972), (2974, 2975), (2979, 2980), (2984, 2986), (2990, 3001), (3024, 3024), 
   (3046, 3058), (3077, 3084), (3086, 3088), (3090, 3112), (3114, 3129), (3133, 3133), 
   (3160, 3162), (3165, 3165), (3168, 3169), (3174, 3183), (3192, 3198), (3200, 3200), 
   (3205, 3212), (3214, 3216), (3218, 3240), (3242, 3251), (3253, 3257), (3261, 3261), 
   (3293, 3294), (3296, 3297), (3302, 3311), (3313, 3314), (3332, 3340), (3342, 3344), 
   (3346, 3386), (3389, 3389), (3406, 3406), (3412, 3414), (3416, 3425), (3430, 3448), 
   (3450, 3455), (3461, 3478), (3482, 3505), (3507, 3515), (3517, 3517), (3520, 3526), 
   (3558, 3567), (3585, 3632), (3634, 3635), (3648, 3654), (3664, 3673), (3713, 3714), 
   (3716, 3716), (3718, 3722), (3724, 3747), (3749, 3749), (3751, 3760), (3762, 3763), 
   (3773, 3773), (3776, 3780), (3782, 3782), (3792, 3801), (3804, 3807), (3840, 3840), 
   (3872, 3891), (3904, 3911), (3913, 3948), (3976, 3980), (4096, 4138), (4159, 4169), 
   (4176, 4181), (4186, 4189), (4193, 4193), (4197, 4198), (4206, 4208), (4213, 4225), 
   (4238, 4238), (4240, 4249), (4256, 4293), (4295, 4295), (4301, 4301), (4304, 4346), 
   (4348, 4680), (4682, 4685), (4688, 4694), (4696, 4696), (4698, 4701), (4704, 4744), 
   (4746, 4749), (4752, 4784), (4786, 4789), (4792, 4798), (4800, 4800), (4802, 4805), 
   (4808, 4822), (4824, 4880), (4882, 4885), (4888, 4954), (4969, 4988), (4992, 5007), 
   (5024, 5109), (5112, 5117), (5121, 5740), (5743, 5759), (5761, 5786), (5792, 5866), 
   (5870, 5880), (5888, 5905), (5919, 5937), (5952, 5969), (5984, 5996), (5998, 6000), 
   (6016, 6067), (6103, 6103), (6108, 6108), (6112, 6121), (6128, 6137), (6160, 6169), 
   (6176, 6264), (6272, 6276), (6279, 6312), (6314, 6314), (6320, 6389), (6400, 6430), 
   (6470, 6509), (6512, 6516), (6528, 6571), (6576, 6601), (6608, 6618), (6656, 6678), 
   (6688, 6740), (6784, 6793), (6800, 6809), (6823, 6823), (6917, 6963), (6981, 6988), 
   (6992, 7001), (7043, 7072), (7086, 7141), (7168, 7203), (7232, 7241), (7245, 7293), 
   (7296, 7304), (7312, 7354), (7357, 7359), (7401, 7404), (7406, 7411), (7413, 7414), 
   (7418, 7418), (7424, 7615), (7680, 7957), (7960, 7965), (7968, 8005), (8008, 8013), 
   (8016, 8023), (8025, 8025), (8027, 8027), (8029, 8029), (8031, 8061), (8064, 8116), 
   (8118, 8124), (8126, 8126), (8130, 8132), (8134, 8140), (8144, 8147), (8150, 8155), 
   (8160, 8172), (8178, 8180), (8182, 8188), (8304, 8305), (8308, 8313), (8319, 8329), 
   (8336, 8348), (8450, 8450), (8455, 8455), (8458, 8467), (8469, 8469), (8473, 8477), 
   (8484, 8484), (8486, 8486), (8488, 8488), (8490, 8493), (8495, 8505), (8508, 8511), 
   (8517, 8521), (8526, 8526), (8528, 8585), (9312, 9371), (9450, 9471), (10102, 10131), 
   (11264, 11492), (11499, 11502), (11506, 11507), (11517, 11517), (11520, 11557), 
   (11559, 11559), (11565, 11565), (11568, 11623), (11631, 11631), (11648, 11670), 
   (11680, 11686), (11688, 11694), (11696, 11702), (11704, 11710), (11712, 11718), 
   (11720, 11726), (11728, 11734), (11736, 11742), (11823, 11823), (12293, 12295), 
   (12321, 12329), (12337, 12341), (12344, 12348), (12353, 12438), (12445, 12447), 
   (12449, 12538), (12540, 12543), (12549, 12591), (12593, 12686), (12690, 12693), 
   (12704, 12735), (12784, 12799), (12832, 12841), (12872, 12879), (12881, 12895), 
   (12928, 12937), (12977, 12991), (13312, 19903), (19968, 42124), (42192, 42237), 
   (42240, 42508), (42512, 42539), (42560, 42606), (42623, 42653), (42656, 42735), 
   (42775, 42783), (42786, 42888), (42891, 42954), (42960, 42961), (42963, 42963), 
   (42965, 42969), (42994, 43009), (43011, 43013), (43015, 43018), (43020, 43042), 
   (43056, 43061), (43072, 43123), (43138, 43187), (43216, 43225), (43250, 43255), 
   (43259, 43259), (43261, 43262), (43264, 43301), (43312, 43334), (43360, 43388), 
   (43396, 43442), (43471, 43481), (43488, 43492), (43494, 43518), (43520, 43560), 
   (43584, 43586), (43588, 43595), (43600, 43609), (43616, 43638), (43642, 43642), 
   (43646, 43695), (43697, 43697), (43701, 43702), (43705, 43709), (43712, 43712), 
   (43714, 43714), (43739, 43741), (43744, 43754), (43762, 43764), (43777, 43782), 
   (43785, 43790), (43793, 43798), (43808, 43814), (43816, 43822), (43824, 43866), 
   (43868, 43881), (43888, 44002), (44016, 44025), (44032, 55203), (55216, 55238), 
   (55243, 55291), (63744, 64109), (64112, 64217), (64256, 64262), (64275, 64279), 
   (64285, 64285), (64287, 64296), (64298, 64310), (64312, 64316), (64318, 64318), 
   (64320, 64321), (64323, 64324), (64326, 64433), (64467, 64829), (64848, 64911), 
   (64914, 64967), (65008, 65019), (65136, 65140), (65142, 65276), (65296, 65305), 
   (65313, 65338), (65345, 65370), (65382, 65470), (65474, 65479), (65482, 65487), 
   (65490, 65495), (65498, 65500), (65536, 65547), (65549, 65574), (65576, 65594), 
   (65596, 65597), (65599, 65613), (65616, 65629), (65664, 65786), (65799, 65843), 
   (65856, 65912), (65930, 65931), (66176, 66204), (66208, 66256), (66273, 66299), 
   (66304, 66339), (66349, 66378), (66384, 66421), (66432, 66461), (66464, 66499), 
   (66504, 66511), (66513, 66517), (66560, 66717), (66720, 66729), (66736, 66771), 
   (66776, 66811), (66816, 66855), (66864, 66915), (66928, 66938), (66940, 66954), 
   (66956, 66962), (66964, 66965), (66967, 66977), (66979, 66993), (66995, 67001), 
   (67003, 67004), (67072, 67382), (67392, 67413), (67424, 67431), (67456, 67461), 
   (67463, 67504), (67506, 67514), (67584, 67589), (67592, 67592), (67594, 67637), 
   (67639, 67640), (67644, 67644), (67647, 67669), (67672, 67702), (67705, 67742), 
   (67751, 67759), (67808, 67826), (67828, 67829), (67835, 67867), (67872, 67897), 
   (67968, 68023), (68028, 68047), (68050, 68096), (68112, 68115), (68117, 68119), 
   (68121, 68149), (68160, 68168), (68192, 68222), (68224, 68255), (68288, 68295), 
   (68297, 68324), (68331, 68335), (68352, 68405), (68416, 68437), (68440, 68466), 
   (68472, 68497), (68521, 68527), (68608, 68680), (68736, 68786), (68800, 68850), 
   (68858, 68899), (68912, 68921), (69216, 69246), (69248, 69289), (69296, 69297), 
   (69376, 69415), (69424, 69445), (69457, 69460), (69488, 69505), (69552, 69579), 
   (69600, 69622), (69635, 69687), (69714, 69743), (69745, 69746), (69749, 69749), 
   (69763, 69807), (69840, 69864), (69872, 69881), (69891, 69926), (69942, 69951), 
   (69956, 69956), (69959, 69959), (69968, 70002), (70006, 70006), (70019, 70066), 
   (70081, 70084), (70096, 70106), (70108, 70108), (70113, 70132), (70144, 70161), 
   (70163, 70187), (70272, 70278), (70280, 70280), (70282, 70285), (70287, 70301), 
   (70303, 70312), (70320, 70366), (70384, 70393), (70405, 70412), (70415, 70416), 
   (70419, 70440), (70442, 70448), (70450, 70451), (70453, 70457), (70461, 70461), 
   (70480, 70480), (70493, 70497), (70656, 70708), (70727, 70730), (70736, 70745), 
   (70751, 70753), (70784, 70831), (70852, 70853), (70855, 70855), (70864, 70873), 
   (71040, 71086), (71128, 71131), (71168, 71215), (71236, 71236), (71248, 71257), 
   (71296, 71338), (71352, 71352), (71360, 71369), (71424, 71450), (71472, 71483), 
   (71488, 71494), (71680, 71723), (71840, 71922), (71935, 71942), (71945, 71945), 
   (71948, 71955), (71957, 71958), (71960, 71983), (71999, 71999), (72001, 72001), 
   (72016, 72025), (72096, 72103), (72106, 72144), (72161, 72161), (72163, 72163), 
   (72192, 72192), (72203, 72242), (72250, 72250), (72272, 72272), (72284, 72329), 
   (72349, 72349), (72368, 72440), (72704, 72712), (72714, 72750), (72768, 72768), 
   (72784, 72812), (72818, 72847), (72960, 72966), (72968, 72969), (72971, 73008), 
   (73030, 73030), (73040, 73049), (73056, 73061), (73063, 73064), (73066, 73097), 
   (73112, 73112), (73120, 73129), (73440, 73458), (73648, 73648), (73664, 73684), 
   (73728, 74649), (74752, 74862), (74880, 75075), (77712, 77808), (77824, 78894), 
   (82944, 83526), (92160, 92728), (92736, 92766), (92768, 92777), (92784, 92862), 
   (92864, 92873), (92880, 92909), (92928, 92975), (92992, 92995), (93008, 93017), 
   (93019, 93025), (93027, 93047), (93053, 93071), (93760, 93846), (93952, 94026), 
   (94032, 94032), (94099, 94111), (94176, 94177), (94179, 94179), (94208, 100343), 
   (100352, 101589), (101632, 101640), (110576, 110579), (110581, 110587), (110589, 110590), 
   (110592, 110882), (110928, 110930), (110948, 110951), (110960, 111355), (113664, 113770), 
   (113776, 113788), (113792, 113800), (113808, 113817), (119520, 119539), (119648, 119672), 
   (119808, 119892), (119894, 119964), (119966, 119967), (119970, 119970), (119973, 119974), 
   (119977, 119980), (119982, 119993), (119995, 119995), (119997, 120003), (120005, 120069), 
   (120071, 120074), (120077, 120084), (120086, 120092), (120094, 120121), (120123, 120126), 
   (120128, 120132), (120134, 120134), (120138, 120144), (120146, 120485), (120488, 120512), 
   (120514, 120538), (120540, 120570), (120572, 120596), (120598, 120628), (120630, 120654), 
   (120656, 120686), (120688, 120712), (120714, 120744), (120746, 120770), (120772, 120779), 
   (120782, 120831), (122624, 122654), (123136, 123180), (123191, 123197), (123200, 123209), 
   (123214, 123214), (123536, 123565), (123584, 123627), (123632, 123641), (124896, 124902), 
   (124904, 124907), (124909, 124910), (124912, 124926), (124928, 125124), (125127, 125135), 
   (125184, 125251), (125259, 125259), (125264, 125273), (126065, 126123), (126125, 126127), 
   (126129, 126132), (126209, 126253), (126255, 126269), (126464, 126467), (126469, 126495), 
   (126497, 126498), (126500, 126500), (126503, 126503), (126505, 126514), (126516, 126519), 
   (126521, 126521), (126523, 126523), (126530, 126530), (126535, 126535), (126537, 126537), 
   (126539, 126539), (126541, 126543), (126545, 126546), (126548, 126548), (126551, 126551), 
   (126553, 126553), (126555, 126555), (126557, 126557), (126559, 126559), (126561, 126562), 
   (126564, 126564), (126567, 126570), (126572, 126578), (126580, 126583), (126585, 126588), 
   (126590, 126590), (126592, 126601), (126603, 126619), (126625, 126627), (126629, 126633), 
   (126635, 126651), (127232, 127244), (130032, 130041), (131072, 173791), (173824, 177976), 
   (177984, 178205), (178208, 183969), (183984, 191456), (194560, 195101), (196608, 201546)]

/-- Membership of a codepoint in a range table. -/
def inRanges (n : Nat) : List (Nat × Nat) → Bool
  | [] => false
  | (lo, hi) :: rest => if lo ≤ n ∧ n ≤ hi then true else inRanges n rest

/-- Lowercase mapping of Python `str.lower` for every non-ASCII codepoint
whose lowercase differs from itself, as extracted from the CPython 3.11
Unicode database; the single multi-character mapping is U+0130. -/
def pyLowerDeltas : List (Nat × List Nat) :=
  [(192, [224]), (193, [225]), (194, [226]), (195, [227]), (196, [228]), (197, [229]), 
   (198, [230]), (199, [231]), (200, [232]), (201, [233]), (202, [234]), (203, [235]), 
   (204, [236]), (205, [237]), (206, [238]), (207, [239]), (208, [240]), (209, [241]), 
   (210, [242]), (211, [243]), (212, [244]), (213, [245]), (214, [246]), (216, [248]), 
   (217, [249]), (218, [250]), (219, [251]), (220, [252]), (221, [253]), (222, [254]), 
   (256, [257]), (258, [259]), (260, [261]), (262, [263]), (264, [265]), (266, [267]), 
   (268, [269]), (270, [271]), (272, [273]), (274, [275]), (276, [277]), (278, [279]), 
   (280, [281]), (282, [283]), (284, [285]), (286, [287]), (288, [289]), (290, [291]), 
   (292, [293]), (294, [295]), (296, [297]), (298, [299]), (300, [301]), (302, [303]), 
   (304, [105, 775]), (306, [307]), (308, [309]), (310, [311]), (313, [314]), (315, [316]), 
   (317, [318]), (319, [320]), (321, [322]), (323, [324]), (325, [326]), (327, [328]), 
   (330, [331]), (332, [333]), (334, [335]), (336, [337]), (338, [339]), (340, [341]), 
   (342, [343]), (344, [345]), (346, [347]), (348, [349]), (350, [351]), (352, [353]), 
   (354, [355]), (356, [357]), (358, [359]), (360, [361]), (362, [363]), (364, [365]), 
   (366, [367]), (368, [369]), (370, [371]), (372, [373]), (374, [375]), (376, [255]), 
   (377, [378]), (379, [380]), (381, [382]), (385, [595]), (386, [387]), (388, [389]), 
   (390, [596]), (391, [392]), (393, [598]), (394, [599]), (395, [396]), (398, [477]), 
   (399, [601]), (400, [603]), (401, [402]), (403, [608]), (404, [611]), (406, [617]), 
   (407, [616]), (408, [409]), (412, [623]), (413, [626]), (415, [629]), (416, [417]), 
   (418, [419]), (420, [421]), (422, [640]), (423, [424]), (425, [643]), (428, [429]), 
   (430, [648]), (431, [432]), (433, [650]), (434, [651]), (435, [436]), (437, [438]), 
   (439, [658]), (440, [441]), (444, [445]), (452, [454]), (453, [454]), (455, [457]), 
   (456, [457]), (458, [460]), (459, [460]), (461, [462]), (463, [464]), (465, [466]), 
   (467, [468]), (469, [470]), (471, [472]), (473, [474]), (475, [476]), (478, [479]), 
   (480, [481]), (482, [483]), (484, [485]), (486, [487]), (488, [489]), (490, [491]), 
   (492, [493]), (494, [495]), (497, [499]), (498, [499]), (500, [501]), (502, [405]), 
   (503, [447]), (504, [505]), (506, [507]), (508, [509]), (510, [511]), (512, [513]), 
   (514, [515]), (516, [517]), (518, [519]), (520, [521]), (522, [523]), (524, [525]), 
   (526, [527]), (528, [529]), (530, [531]), (532, [533]), (534, [535]), (536, [537]), 
   (538, [539]), (540, [541]), (542, [543]), (544, [414]), (546, [547]), (548, [549]), 
   (550, [551]), (552, [553]), (554, [555]), (556, [557]), (558, [559]), (560, [561]), 
   (562, [563]), (570, [11365]), (571, [572]), (573, [410]), (574, [11366]), (577, [578]), 
   (579, [384]), (580, [649]), (581, [652]), (582, [583]), (584, [585]), (586, [587]), 
   (588, [589]), (590, [591]), (880, [881]), (882, [883]), (886, [887]), (895, [1011]), 
   (902, [940]), (904, [941]), (905, [942]), (906, [943]), (908, [972]), (910, [973]), 
   (911, [974]), (913, [945]), (914, [946]), (915, [947]), (916, [948]), (917, [949]), 
   (918, [950]), (919, [951]), (920, [952]), (921, [953]), (922, [954]), (923, [955]), 
   (924, [956]), (925, [957]), (926, [958]), (927, [959]), (928, [960]), (929, [961]), 
   (931, [963]), (932, [964]), (933, [965]), (934, [966]), (935, [967]), (936, [968]), 
   (937, [969]), (938, [970]), (939, [971]), (975, [983]), (984, [985]), (986, [987]), 
   (988, [989]), (990, [991]), (992, [993]), (994, [995]), (996, [997]), (998, [999]), 
   (1000, [1001]), (1002, [1003]), (1004, [1005]), (1006, [1007]), (1012, [952]), (1015, [1016]), 
   (1017, [1010]), (1018, [1019]), (1021, [891]), (1022, [892]), (1023, [893]), (1024, [1104]), 
   (1025, [1105]), (1026, [1106]), (1027, [1107]), (1028, [1108]), (1029, [1109]), 
   (1030, [1110]), (1031, [1111]), (1032, [1112]), (1033, [1113]), (1034, [1114]), 
   (1035, [1115]), (1036, [1116]), (1037, [1117]), (1038, [1118]), (1039, [1119]), 
   (1040, [1072]), (1041, [1073]), (1042, [1074]), (1043, [1075]), (1044, [1076]), 
   (1045, [1077]), (1046, [1078]), (1047, [1079]), (1048, [1080]), (1049, [1081]), 
   (1050, [1082]), (1051, [1083]), (1052, [1084]), (1053, [1085]), (1054, [1086]), 
   (1055, [1087]), (1056, [1088]), (1057, [1089]), (1058, [1090]), (1059, [1091]), 
   (1060, [1092]), (1061, [1093]), (1062, [1094]), (1063, [1095]), (1064, [1096]), 
   (1065, [1097]), (1066, [1098]), (1067, [1099]), (1068, [1100]), (1069, [1101]), 
   (1070, [1102]), (1071, [1103]), (1120, [1121]), (1122, [1123]), (1124, [1125]), 
   (1126, [1127]), (1128, [1129]), (1130, [1131]), (1132, [1133]), (1134, [1135]), 
   (1136, [1137]), (1138, [1139]), (1140, [1141]), (1142, [1143]), (1144, [1145]), 
   (1146, [1147]), (1148, [1149]), (1150, [1151]), (1152, [1153]), (1162, [1163]), 
   (1164, [1165]), (1166, [1167]), (1168, [1169]), (1170, [1171]), (1172, [1173]), 
   (1174, [1175]), (1176, [1177]), (1178, [1179]), (1180, [1181]), (1182, [1183]), 
   (1184, [1185]), (1186, [1187]), (1188, [1189]), (1190, [1191]), (1192, [1193]), 
   (1194, [1195]), (1196, [1197]), (1198, [1199]), (1200, [1201]), (1202, [1203]), 
   (1204, [1205]), (1206, [1207]), (1208, [1209]), (1210, [1211]), (1212, [1213]), 
   (1214, [1215]), (1216, [1231]), (1217, [1218]), (1219, [1220]), (1221, [1222]), 
   (1223, [1224]), (1225, [1226]), (1227, [1228]), (1229, [1230]), (1232, [1233]), 
   (1234, [1235]), (1236, [1237]), (1238, [1239]), (1240, [1241]), (1242, [1243]), 
   (1244, [1245]), (1246, [1247]), (1248, [1249]), (1250, [1251]), (1252, [1253]), 
   (1254, [1255]), (1256, [1257]), (1258, [1259]), (1260, [1261]), (1262, [1263]), 
   (1264, [1265]), (1266, [1267]), (1268, [1269]), (1270, [1271]), (1272, [1273]), 
   (1274, [1275]), (1276, [1277]), (1278, [1279]), (1280, [1281]), (1282, [1283]), 
   (1284, [1285]), (1286, [1287]), (1288, [1289]), (1290, [1291]), (1292, [1293]), 
   (1294, [1295]), (1296, [1297]), (1298, [1299]), (1300, [1301]), (1302, [1303]), 
   (1304, [1305]), (1306, [1307]), (1308, [1309]), (1310, [1311]), (1312, [1313]), 
   (1314, [1315]), (1316, [1317]), (1318, [1319]), (1320, [1321]), (1322, [1323]), 
   (1324, [1325]), (1326, [1327]), (1329, [1377]), (1330, [1378]), (1331, [1379]), 
   (1332, [1380]), (1333, [1381]), (1334, [1382]), (1335, [1383]), (1336, [1384]), 
   (1337, [1385]), (1338, [1386]), (1339, [1387]), (1340, [1388]), (1341, [1389]), 
   (1342, [1390]), (1343, [1391]), (1344, [1392]), (1345, [1393]), (1346, [1394]), 
   (1347, [1395]), (1348, [1396]), (1349, [1397]), (1350, [1398]), (1351, [1399]), 
   (1352, [1400]), (1353, [1401]), (1354, [1402]), (1355, [1403]), (1356, [1404]), 
   (1357, [1405]), (1358, [1406]), (1359, [1407]), (1360, [1408]), (1361, [1409]), 
   (1362, [1410]), (1363, [1411]), (1364, [1412]), (1365, [1413]), (1366, [1414]), 
   (4256, [11520]), (4257, [11521]), (4258, [11522]), (4259, [11523]), (4260, [11524]), 
   (4261, [11525]), (4262, [11526]), (4263, [11527]), (4264, [11528]), (4265, [11529]), 
   (4266, [11530]), (4267, [11531]), (4268, [11532]), (4269, [11533]), (4270, [11534]), 
   (4271, [11535]), (4272, [11536]), (4273, [11537]), (4274, [11538]), (4275, [11539]), 
   (4276, [11540]), (4277, [11541]), (4278, [11542]), (4279, [11543]), (4280, [11544]), 
   (4281, [11545]), (4282, [11546]), (4283, [11547]), (4284, [11548]), (4285, [11549]), 
   (4286, [11550]), (4287, [11551]), (4288, [11552]), (4289, [11553]), (4290, [11554]), 
   (4291, [11555]), (4292, [11556]), (4293, [11557]), (4295, [11559]), (4301, [11565]), 
   (5024, [43888]), (5025, [43889]), (5026, [43890]), (5027, [43891]), (5028, [43892]), 
   (5029, [43893]), (5030, [43894]), (5031, [43895]), (5032, [43896]), (5033, [43897]), 
   (5034, [43898]), (5035, [43899]), (5036, [43900]), (5037, [43901]), (5038, [43902]), 
   (5039, [43903]), (5040, [43904]), (5041, [43905]), (5042, [43906]), (5043, [43907]), 
   (5044, [43908]), (5045, [43909]), (5046, [43910]), (5047, [43911]), (5048, [43912]), 
   (5049, [43913]), (5050, [43914]), (5051, [43915]), (5052, [43916]), (5053, [43917]), 
   (5054, [43918]), (5055, [43919]), (5056, [43920]), (5057, [43921]), (5058, [43922]), 
   (5059, [43923]), (5060, [43924]), (5061, [43925]), (5062, [43926]), (5063, [43927]), 
   (5064, [43928]), (5065, [43929]), (5066, [43930]), (5067, [43931]), (5068, [43932]), 
   (5069, [43933]), (5070, [43934]), (5071, [43935]), (5072, [43936]), (5073, [43937]), 
   (5074, [43938]), (5075, [43939]), (5076, [43940]), (5077, [43941]), (5078, [43942]), 
   (5079, [43943]), (5080, [43944]), (5081, [43945]), (5082, [43946]), (5083, [43947]), 
   (5084, [43948]), (5085, [43949]), (5086, [43950]), (5087, [43951]), (5088, [43952]), 
   (5089, [43953]), (5090, [43954]), (5091, [43955]), (5092, [43956]), (5093, [43957]), 
   (5094, [43958]), (5095, [43959]), (5096, [43960]), (5097, [43961]), (5098, [43962]), 
   (5099, [43963]), (5100, [43964]), (5101, [43965]), (5102, [43966]), (5103, [43967]), 
   (5104, [5112]), (5105, [5113]), (5106, [5114]), (5107, [5115]), (5108, [5116]), 
   (5109, [5117]), (7312, [4304]), (7313, [4305]), (7314, [4306]), (7315, [4307]), 
   (7316, [4308]), (7317, [4309]), (7318, [4310]), (7319, [4311]), (7320, [4312]), 
   (7321, [4313]), (7322, [4314]), (7323, [4315]), (7324, [4316]), (7325, [4317]), 
   (7326, [4318]), (7327, [4319]), (7328, [4320]), (7329, [4321]), (7330, [4322]), 
   (7331, [4323]), (7332, [4324]), (7333, [4325]), (7334, [4326]), (7335, [4327]), 
   (7336, [4328]), (7337, [4329]), (7338, [4330]), (7339, [4331]), (7340, [4332]), 
   (7341, [4333]), (7342, [4334]), (7343, [4335]), (7344, [4336]), (7345, [4337]), 
   (7346, [4338]), (7347, [4339]), (7348, [4340]), (7349, [4341]), (7350, [4342]), 
   (7351, [4343]), (7352, [4344]), (7353, [4345]), (7354, [4346]), (7357, [4349]), 
   (7358, [4350]), (7359, [4351]), (7680, [7681]), (7682, [7683]), (7684, [7685]), 
   (7686, [7687]), (7688, [7689]), (7690, [7691]), (7692, [7693]), (7694, [7695]), 
   (7696, [7697]), (7698, [7699]), (7700, [7701]), (7702, [7703]), (7704, [7705]), 
   (7706, [7707]), (7708, [7709]), (7710, [7711]), (7712, [7713]), (7714, [7715]), 
   (7716, [7717]), (7718, [7719]), (7720, [7721]), (7722, [7723]), (7724, [7725]), 
   (7726, [7727]), (7728, [7729]), (7730, [7731]), (7732, [7733]), (7734, [7735]), 
   (7736, [7737]), (7738, [7739]), (7740, [7741]), (7742, [7743]), (7744, [7745]), 
   (7746, [7747]), (7748, [7749]), (7750, [7751]), (7752, [7753]), (7754, [7755]), 
   (7756, [7757]), (7758, [7759]), (7760, [7761]), (7762, [7763]), (7764, [7765]), 
   (7766, [7767]), (7768, [7769]), (7770, [7771]), (7772, [7773]), (7774, [7775]), 
   (7776, [7777]), (7778, [7779]), (7780, [7781]), (7782, [7783]), (7784, [7785]), 
   (7786, [7787]), (7788, [7789]), (7790, [7791]), (7792, [7793]), (7794, [7795]), 
   (7796, [7797]), (7798, [7799]), (7800, [7801]), (7802, [7803]), (7804, [7805]), 
   (7806, [7807]), (7808, [7809]), (7810, [7811]), (7812, [7813]), (7814, [7815]), 
   (7816, [7817]), (7818, [7819]), (7820, [7821]), (7822, [7823]), (7824, [7825]), 
   (7826, [7827]), (7828, [7829]), (7838, [223]), (7840, [7841]), (7842, [7843]), (7844, [7845]), 
   (7846, [7847]), (7848, [7849]), (7850, [7851]), (7852, [7853]), (7854, [7855]), 
   (7856, [7857]), (7858, [7859]), (7860, [7861]), (7862, [7863]), (7864, [7865]), 
   (7866, [7867]), (7868, [7869]), (7870, [7871]), (7872, [7873]), (7874, [7875]), 
   (7876, [7877]), (7878, [7879]), (7880, [7881]), (7882, [7883]), (7884, [7885]), 
   (7886, [7887]), (7888, [7889]), (7890, [7891]), (7892, [7893]), (7894, [7895]), 
   (7896, [7897]), (7898, [7899]), (7900, [7901]), (7902, [7903]), (7904, [7905]), 
   (7906, [7907]), (7908, [7909]), (7910, [7911]), (7912, [7913]), (7914, [7915]), 
   (7916, [7917]), (7918, [7919]), (7920, [7921]), (7922, [7923]), (7924, [7925]), 
   (7926, [7927]), (7928, [7929]), (7930, [7931]), (7932, [7933]), (7934, [7935]), 
   (7944, [7936]), (7945, [7937]), (7946, [7938]), (7947, [7939]), (7948, [7940]), 
   (7949, [7941]), (7950, [7942]), (7951, [7943]), (7960, [7952]), (7961, [7953]), 
   (7962, [7954]), (7963, [7955]), (7964, [7956]), (7965, [7957]), (7976, [7968]), 
   (7977, [7969]), (7978, [7970]), (7979, [7971]), (7980, [7972]), (7981, [7973]), 
   (7982, [7974]), (7983, [7975]), (7992, [7984]), (7993, [7985]), (7994, [7986]), 
   (7995, [7987]), (7996, [7988]), (7997, [7989]), (7998, [7990]), (7999, [7991]), 
   (8008, [8000]), (8009, [8001]), (8010, [8002]), (8011, [8003]), (8012, [8004]), 
   (8013, [8005]), (8025, [8017]), (8027, [8019]), (8029, [8021]), (8031, [8023]), 
   (8040, [8032]), (8041, [8033]), (8042, [8034]), (8043, [8035]), (8044, [8036]), 
   (8045, [8037]), (8046, [8038]), (8047, [8039]), (8072, [8064]), (8073, [8065]), 
   (8074, [8066]), (8075, [8067]), (8076, [8068]), (8077, [8069]), (8078, [8070]), 
   (8079, [8071]), (8088, [8080]), (8089, [8081]), (8090, [8082]), (8091, [8083]), 
   (8092, [8084]), (8093, [8085]), (8094, [8086]), (8095, [8087]), (8104, [8096]), 
   (8105, [8097]), (8106, [8098]), (8107, [8099]), (8108, [8100]), (8109, [8101]), 
   (8110, [8102]), (8111, [8103]), (8120, [8112]), (8121, [8113]), (8122, [8048]), 
   (8123, [8049]), (8124, [8115]), (8136, [8050]), (8137, [8051]), (8138, [8052]), 
   (8139, [8053]), (8140, [8131]), (8152, [8144]), (8153, [8145]), (8154, [8054]), 
   (8155, [8055]), (8168, [8160]), (8169, [8161]), (8170, [8058]), (8171, [8059]), 
   (8172, [8165]), (8184, [8056]), (8185, [8057]), (8186, [8060]), (8187, [8061]), 
   (8188, [8179]), (8486, [969]), (8490, [107]), (8491, [229]), (8498, [8526]), (8544, [8560]), 
   (8545, [8561]), (8546, [8562]), (8547, [8563]), (8548, [8564]), (8549, [8565]), 
   (8550, [8566]), (8551, [8567]), (8552, [8568]), (8553, [8569]), (8554, [8570]), 
   (8555, [8571]), (8556, [8572]), (8557, [8573]), (8558, [8574]), (8559, [8575]), 
   (8579, [8580]), (9398, [9424]), (9399, [9425]), (9400, [9426]), (9401, [9427]), 
   (9402, [9428]), (9403, [9429]), (9404, [9430]), (9405, [9431]), (9406, [9432]), 
   (9407, [9433]), (9408, [9434]), (9409, [9435]), (9410, [9436]), (9411, [9437]), 
   (9412, [9438]), (9413, [9439]), (9414, [9440]), (9415, [9441]), (9416, [9442]), 
   (9417, [9443]), (9418, [9444]), (9419, [9445]), (9420, [9446]), (9421, [9447]), 
   (9422, [9448]), (9423, [9449]), (11264, [11312]), (11265, [11313]), (11266, [11314]), 
   (11267, [11315]), (11268, [11316]), (11269, [11317]), (11270, [11318]), (11271, [11319]), 
   (11272, [11320]), (11273, [11321]), (11274, [11322]), (11275, [11323]), (11276, [11324]), 
   (11277, [11325]), (11278, [11326]), (11279, [11327]), (11280, [11328]), (11281, [11329]), 
   (11282, [11330]), (11283, [11331]), (11284, [11332]), (11285, [11333]), (11286, [11334]), 
   (11287, [11335]), (11288, [11336]), (11289, [11337]), (11290, [11338]), (11291, [11339]), 
   (11292, [11340]), (11293, [11341]), (11294, [11342]), (11295, [11343]), (11296, [11344]), 
   (11297, [11345]), (11298, [11346]), (11299, [11347]), (11300, [11348]), (11301, [11349]), 
   (11302, [11350]), (11303, [11351]), (11304, [11352]), (11305, [11353]), (11306, [11354]), 
   (11307, [11355]), (11308, [11356]), (11309, [11357]), (11310, [11358]), (11311, [11359]), 
   (11360, [11361]), (11362, [619]), (11363, [7549]), (11364, [637]), (11367, [11368]), 
   (11369, [11370]), (11371, [11372]), (11373, [593]), (11374, [625]), (11375, [592]), 
   (11376, [594]), (11378, [11379]), (11381, [11382]), (11390, [575]), (11391, [576]), 
   (11392, [11393]), (11394, [11395]), (11396, [11397]), (11398, [11399]), (11400, [11401]), 
   (11402, [11403]), (11404, [11405]), (11406, [11407]), (11408, [11409]), (11410, [11411]), 
   (11412, [11413]), (11414, [11415]), (11416, [11417]), (11418, [11419]), (11420, [11421]), 
   (11422, [11423]), (11424, [11425]), (11426, [11427]), (11428, [11429]), (11430, [11431]), 
   (11432, [11433]), (11434, [11435]), (11436, [11437]), (11438, [11439]), (11440, [11441]), 
   (11442, [11443]), (11444, [11445]), (11446, [11447]), (11448, [11449]), (11450, [11451]), 
   (11452, [11453]), (11454, [11455]), (11456, [11457]), (11458, [11459]), (11460, [11461]), 
   (11462, [11463]), (11464, [11465]), (11466, [11467]), (11468, [11469]), (11470, [11471]), 
   (11472, [11473]), (11474, [11475]), (11476, [11477]), (11478, [11479]), (11480, [11481]), 
   (11482, [11483]), (11484, [11485]), (11486, [11487]), (11488, [11489]), (11490, [11491]), 
   (11499, [11500]), (11501, [11502]), (11506, [11507]), (42560, [42561]), (42562, [42563]), 
   (42564, [42565]), (42566, [42567]), (42568, [42569]), (42570, [42571]), (42572, [42573]), 
   (42574, [42575]), (42576, [42577]), (42578, [42579]), (42580, [42581]), (42582, [42583]), 
   (42584, [42585]), (42586, [42587]), (42588, [42589]), (42590, [42591]), (42592, [42593]), 
   (42594, [42595]), (42596, [42597]), (42598, [42599]), (42600, [42601]), (42602, [42603]), 
   (42604, [42605]), (42624, [42625]), (42626, [42627]), (42628, [42629]), (42630, [42631]), 
   (42632, [42633]), (42634, [42635]), (42636, [42637]), (42638, [42639]), (42640, [42641]), 
   (42642, [42643]), (42644, [42645]), (42646, [42647]), (42648, [42649]), (42650, [42651]), 
   (42786, [42787]), (42788, [42789]), (42790, [42791]), (42792, [42793]), (42794, [42795]), 
   (42796, [42797]), (42798, [42799]), (42802, [42803]), (42804, [42805]), (42806, [42807]), 
   (42808, [42809]), (42810, [42811]), (42812, [42813]), (42814, [42815]), (42816, [42817]), 
   (42818, [42819]), (42820, [42821]), (42822, [42823]), (42824, [42825]), (42826, [42827]), 
   (42828, [42829]), (42830, [42831]), (42832, [42833]), (42834, [42835]), (42836, [42837]), 
   (42838, [42839]), (42840, [42841]), (42842, [42843]), (42844, [42845]), (42846, [42847]), 
   (42848, [42849]), (42850, [42851]), (42852, [42853]), (42854, [42855]), (42856, [42857]), 
   (42858, [42859]), (42860, [42861]), (42862, [42863]), (42873, [42874]), (42875, [42876]), 
   (42877, [7545]), (42878, [42879]), (42880, [42881]), (42882, [42883]), (42884, [42885]), 
   (42886, [42887]), (42891, [42892]), (42893, [613]), (42896, [42897]), (42898, [42899]), 
   (42902, [42903]), (42904, [42905]), (42906, [42907]), (42908, [42909]), (42910, [42911]), 
   (42912, [42913]), (42914, [42915]), (42916, [42917]), (42918, [42919]), (42920, [42921]), 
   (42922, [614]), (42923, [604]), (42924, [609]), (42925, [620]), (42926, [618]), 
   (42928, [670]), (42929, [647]), (42930, [669]), (42931, [43859]), (42932, [42933]), 
   (42934, [42935]), (42936, [42937]), (42938, [42939]), (42940, [42941]), (42942, [42943]), 
   (42944, [42945]), (42946, [42947]), (42948, [42900]), (42949, [642]), (42950, [7566]), 
   (42951, [42952]), (42953, [42954]), (42960, [42961]), (42966, [42967]), (42968, [42969]), 
   (42997, [42998]), (65313, [65345]), (65314, [65346]), (65315, [65347]), (65316, [65348]), 
   (65317, [65349]), (65318, [65350]), (65319, [65351]), (65320, [65352]), (65321, [65353]), 
   (65322, [65354]), (65323, [65355]), (65324, [65356]), (65325, [65357]), (65326, [65358]), 
   (65327, [65359]), (65328, [65360]), (65329, [65361]), (65330, [65362]), (65331, [65363]), 
   (65332, [65364]), (65333, [65365]), (65334, [65366]), (65335, [65367]), (65336, [65368]), 
   (65337, [65369]), (65338, [65370]), (66560, [66600]), (66561, [66601]), (66562, [66602]), 
   (66563, [66603]), (66564, [66604]), (66565, [66605]), (66566, [66606]), (66567, [66607]), 
   (66568, [66608]), (66569, [66609]), (66570, [66610]), (66571, [66611]), (66572, [66612]), 
   (66573, [66613]), (66574, [66614]), (66575, [66615]), (66576, [66616]), (66577, [66617]), 
   (66578, [66618]), (66579, [66619]), (66580, [66620]), (66581, [66621]), (66582, [66622]), 
   (66583, [66623]), (66584, [66624]), (66585, [66625]), (66586, [66626]), (66587, [66627]), 
   (66588, [66628]), (66589, [66629]), (66590, [66630]), (66591, [66631]), (66592, [66632]), 
   (66593, [66633]), (66594, [66634]), (66595, [66635]), (66596, [66636]), (66597, [66637]), 
   (66598, [66638]), (66599, [66639]), (66736, [66776]), (66737, [66777]), (66738, [66778]), 
   (66739, [66779]), (66740, [66780]), (66741, [66781]), (66742, [66782]), (66743, [66783]), 
   (66744, [66784]), (66745, [66785]), (66746, [66786]), (66747, [66787]), (66748, [66788]), 
   (66749, [66789]), (66750, [66790]), (66751, [66791]), (66752, [66792]), (66753, [66793]), 
   (66754, [66794]), (66755, [66795]), (66756, [66796]), (66757, [66797]), (66758, [66798]), 
   (66759, [66799]), (66760, [66800]), (66761, [66801]), (66762, [66802]), (66763, [66803]), 
   (66764, [66804]), (66765, [66805]), (66766, [66806]), (66767, [66807]), (66768, [66808]), 
   (66769, [66809]), (66770, [66810]), (66771, [66811]), (66928, [66967]), (66929, [66968]), 
   (66930, [66969]), (66931, [66970]), (66932, [66971]), (66933, [66972]), (66934, [66973]), 
   (66935, [66974]), (66936, [66975]), (66937, [66976]), (66938, [66977]), (66940, [66979]), 
   (66941, [66980]), (66942, [66981]), (66943, [66982]), (66944, [66983]), (66945, [66984]), 
   (66946, [66985]), (66947, [66986]), (66948, [66987]), (66949, [66988]), (66950, [66989]), 
   (66951, [66990]), (66952, [66991]), (66953, [66992]), (66954, [66993]), (66956, [66995]), 
   (66957, [66996]), (66958, [66997]), (66959, [66998]), (66960, [66999]), (66961, [67000]), 
   (66962, [67001]), (66964, [67003]), (66965, [67004]), (68736, [68800]), (68737, [68801]), 
   (68738, [68802]), (68739, [68803]), (68740, [68804]), (68741, [68805]), (68742, [68806]), 
   (68743, [68807]), (68744, [68808]), (68745, [68809]), (68746, [68810]), (68747, [68811]), 
   (68748, [68812]), (68749, [68813]), (68750, [68814]), (68751, [68815]), (68752, [68816]), 
   (68753, [68817]), (68754, [68818]), (68755, [68819]), (68756, [68820]), (68757, [68821]), 
   (68758, [68822]), (68759, [68823]), (68760, [68824]), (68761, [68825]), (68762, [68826]), 
   (68763, [68827]), (68764, [68828]), (68765, [68829]), (68766, [68830]), (68767, [68831]), 
   (68768, [68832]), (68769, [68833]), (68770, [68834]), (68771, [68835]), (68772, [68836]), 
   (68773, [68837]), (68774, [68838]), (68775, [68839]), (68776, [68840]), (68777, [68841]), 
   (68778, [68842]), (68779, [68843]), (68780, [68844]), (68781, [68845]), (68782, [68846]), 
   (68783, [68847]), (68784, [68848]), (68785, [68849]), (68786, [68850]), (71840, [71872]), 
   (71841, [71873]), (71842, [71874]), (71843, [71875]), (71844, [71876]), (71845, [71877]), 
   (71846, [71878]), (71847, [71879]), (71848, [71880]), (71849, [71881]), (71850, [71882]), 
   (71851, [71883]), (71852, [71884]), (71853, [71885]), (71854, [71886]), (71855, [71887]), 
   (71856, [71888]), (71857, [71889]), (71858, [71890]), (71859, [71891]), (71860, [71892]), 
   (71861, [71893]), (71862, [71894]), (71863, [71895]), (71864, [71896]), (71865, [71897]), 
   (71866, [71898]), (71867, [71899]), (71868, [71900]), (71869, [71901]), (71870, [71902]), 
   (71871, [71903]), (93760, [93792]), (93761, [93793]), (93762, [93794]), (93763, [93795]), 
   (93764, [93796]), (93765, [93797]), (93766, [93798]), (93767, [93799]), (93768, [93800]), 
   (93769, [93801]), (93770, [93802]), (93771, [93803]), (93772, [93804]), (93773, [93805]), 
   (93774, [93806]), (93775, [93807]), (93776, [93808]), (93777, [93809]), (93778, [93810]), 
   (93779, [93811]), (93780, [93812]), (93781, [93813]), (93782, [93814]), (93783, [93815]), 
   (93784, [93816]), (93785, [93817]), (93786, [93818]), (93787, [93819]), (93788, [93820]), 
   (93789, [93821]), (93790, [93822]), (93791, [93823]), (125184, [125218]), (125185, [125219]), 
   (125186, [125220]), (125187, [125221]), (125188, [125222]), (125189, [125223]), 
   (125190, [125224]), (125191, [125225]), (125192, [125226]), (125193, [125227]), 
   (125194, [125228]), (125195, [125229]), (125196, [125230]), (125197, [125231]), 
   (125198, [125232]), (125199, [125233]), (125200, [125234]), (125201, [125235]), 
   (125202, [125236]), (125203, [125237]), (125204, [125238]), (125205, [125239]), 
   (125206, [125240]), (125207, [125241]), (125208, [125242]), (125209, [125243]), 
   (125210, [125244]), (125211, [125245]), (125212, [125246]), (125213, [125247]), 
   (125214, [125248]), (125215, [125249]), (125216, [125250]), (125217, [125251])]

/-- Look a codepoint up in the lowercase delta table; unlisted codepoints map
to themselves. -/
def lowerLookup (n : Nat) : List (Nat × List Nat) → List Nat
  | [] => [n]
  | (cp, out) :: rest => if cp = n then out else lowerLookup n rest

/-- Python `str.lower`, character by character: ASCII fast path, else the
Unicode delta table.  The only aspect of `str.lower` this per-character model
does not reproduce is the context-sensitive Greek final-sigma rule. -/
def lowerChar (c : Char) : List Char :=
  if c.toNat < 128 then
    [if 65 ≤ c.toNat ∧ c.toNat ≤ 90 then Char.ofNat (c.toNat + 32) else c]
  else (lowerLookup c.toNat pyLowerDeltas).map Char.ofNat

/-- Python `str.lower` on a whole string. -/
def pyLower (s : String) : String :=
  String.mk ((s.data.map lowerChar).flatten)

/-- Python `set.add`: sets are modelled as insertion-ordered lists of distinct
elements, which fixes a deterministic representative of the unordered set. -/
def pyInsert (acc : List String) (t : String) : List String :=
  if t ∈ acc then acc else acc ++ [t]

/-- Codepoint-lexicographic comparison of character lists: the order Python
`sorted` uses on strings. -/
def lexLe : List Char → List Char → Bool
  | [], _ => true
  | _ :: _, [] => false
  | c :: cs, d :: ds =>
    if c.toNat < d.toNat then true
    else if d.toNat < c.toNat then false
    else lexLe cs ds

/-- Lexicographic codepoint order on strings. -/
def strLe (s t : String) : Prop := lexLe s.data t.data = true

instance : DecidableRel strLe :=
  fun s t => inferInstanceAs (Decidable (lexLe s.data t.data = true))

/-- Python iteration `for x in v`: arrays yield elements, strings yield their
characters as one-character strings, dicts yield their keys; other values are
not iterable (TypeError, modelled as `none`). -/
def pyIter : JVal → Option (List JVal)
  | JVal.arr xs => some xs
  | JVal.str s => some (s.data.map (fun c => JVal.str (String.mk [c])))
  | JVal.obj kvs => some (kvs.map (fun p => JVal.str p.1))
  | _ => none

/-- Python truthiness of a JSON value. -/
def pyTruthy : JVal → Bool
  | JVal.null => false
  | JVal.bool b => b
  | JVal.num q => if q = 0 then false else true
  | JVal.str s => if s = "" then false else true
  | JVal.arr xs => !xs.isEmpty
  | JVal.obj kvs => !kvs.isEmpty

/-- Python `dict.get(k, d)`: the stored value if the key is present, else the
default. -/
def getKeyD : List (String × JVal) → String → JVal → JVal
  | [], _, d => d
  | (k0, v0) :: rest, k, d => if k0 = k then v0 else getKeyD rest k d

/-- The treatment-history label excluded from symptom analysis. -/
def treatmentLabel : String := "การรักษาก่อนหน้า"

/-- Parse one `summary` cell and produce the list the loops
`for item in summary.get("yes_symptoms", [])` iterate over.  `none` models any
exception (parse failure, `.get` on a non-dict, iteration over a non-iterable)
caught by the per-row `try/except`. -/
def rowItems (row : String) : Option (List JVal) :=
  match parseJson (pySingleToDouble row) with
  | some (JVal.obj kvs) => pyIter (getKeyD kvs "yes_symptoms" (JVal.arr []))
  | some _ => none
  | none => none

/-- Model of `item.get("text", "")` restricted to string results: a missing key
defaults to `""`; a non-string value makes the following `.strip()` raise. -/
def textStrOf (ikvs : List (String × JVal)) : Option String :=
  match getKeyD ikvs "text" (JVal.str "") with
  | JVal.str t => some t
  | _ => none

/-- Per-item step of `extract_symptom_combinations`:
`symptom = item.get("text", "").strip()`. -/
def itemSymptomText (it : JVal) : Option String :=
  match it with
  | JVal.obj ikvs => (textStrOf ikvs).map pyStrip
  | _ => none

/-- Per-row symptom set of `extract_symptom_combinations`
(src/symptom_analyzer.py lines 26-40).  The set is appended only after the full
item loop, so an exception anywhere in the row discards the whole row. -/
def rowSymptomsSet (row : String) : Option (List String) :=
  match rowItems row with
  | none => none
  | some items =>
    items.foldlM (fun (acc : List String) it =>
      (itemSymptomText it).map (fun t =>
        if t ≠ "" ∧ t ≠ treatmentLabel then pyInsert acc t else acc)) ([] : List String)

/-- A row qualifies when its symptom set has more than one element. -/
def rowCombo (row : String) : Option (List String) :=
  match rowSymptomsSet row with
  | none => none
  | some c => if 1 < c.length then some c else none

/-- Model of `extract_symptom_combinations(df)`; the source iterates
`df['summary'].fillna("")`. -/
def extractSymptomCombinations (df : List (Option String)) : List (List String) :=
  (df.map (fun cell => cell.getD "")).filterMap rowCombo

/-- Lazy scan modelling `any(a.strip() for a in answers)`: stops at the first
truthy stripped string, raises (`none`) at the first non-string element. -/
def scanStrs : List JVal → Option Bool
  | [] => some false
  | JVal.str s :: rest => if pyStrip s ≠ "" then some true else scanStrs rest
  | _ :: _ => none

/-- Model of `any(a.strip() for a in answers)` including the implicit iteration
over `answers`. -/
def pyAnyStripTruthy (v : JVal) : Option Bool :=
  match pyIter v with
  | none => none
  | some elems => scanStrs elems

/-- Per-item step of `extract_all_symptoms` (src/data_processor.py lines 60-64):
evaluates `text and text != "การรักษาก่อนหน้า" and answers and any(...)` with
Python short-circuiting; `some (some t)` adds `t`, `some none` adds nothing,
`none` raises. -/
def itemTextOK (it : JVal) : Option (Option String) :=
  match it with
  | JVal.obj ikvs =>
    match textStrOf ikvs with
    | none => none
    | some t0 =>
      let t := pyStrip t0
      let answers := getKeyD ikvs "answers" (JVal.arr [])
      if t ≠ "" ∧ t ≠ treatmentLabel ∧ pyTruthy answers = true then
        match pyAnyStripTruthy answers with
        | none => none
        | some b => some (if b then some t else none)
      else some none
  | _ => none

/-- Texts a row adds to the accumulating `symptoms` set in
`extract_all_symptoms`.  The set is module-level across the item loop, so an
exception in a later item keeps the texts added by earlier items. -/
def collectTexts : List JVal → List String
  | [] => []
  | it :: rest =>
    match itemTextOK it with
    | none => []
    | some none => collectTexts rest
    | some (some t) => t :: collectTexts rest

/-- Row contribution of `extract_all_symptoms` (exception skips the rest of the
row, keeping earlier items). -/
def rowAllTexts (row : String) : List String :=
  match rowItems row with
  | none => []
  | some items => collectTexts items

/-- Sort a list of strings lexicographically (Python `sorted`). -/
def sortStr (l : List String) : List String :=
  List.insertionSort strLe l

/-- Model of `extract_all_symptoms(df)` (src/data_processor.py lines 46-67):
the union of all per-row contributions as a set, sorted.  `none` cells raise at
`summary_str.replace` and are skipped. -/
def extractAllSymptoms (df : List (Option String)) : List String :=
  sortStr (((df.filterMap (fun cell => cell.map rowAllTexts)).flatten).dedup)

/-- Strings only: any other value raises when `.strip()` is applied. -/
def jStr? : JVal → Option String
  | JVal.str s => some s
  | _ => none

/-- Per-item step shared by `get_answers_by_symptom` and
`calculate_symptom_similarity`:
`[a.strip() for a in item.get("answers", []) if a.strip()]` for an item whose
stripped text equals `symptom`; the comprehension is eager, so any non-string
element raises before anything is kept. -/
def itemAnswersFor (symptom : String) (it : JVal) : Option (List String) :=
  match it with
  | JVal.obj ikvs =>
    match textStrOf ikvs with
    | none => none
    | some t0 =>
      if pyStrip t0 = symptom then
        match pyIter (getKeyD ikvs "answers" (JVal.arr [])) with
        | none => none
        | some elems =>
          match elems.mapM jStr? with
          | none => none
          | some ss => some ((ss.map pyStrip).filter (fun a => decide (a ≠ "")))
      else some []
  | _ => none

/-- Collect item results until the first exception; the results of earlier
items were already appended to the caller's accumulator and survive. -/
def collectOpt (f : JVal → Option (List String)) : List JVal → List String
  | [] => []
  | it :: rest =>
    match f it with
    | none => []
    | some l => l ++ collectOpt f rest

/-- Row contribution of answers for one symptom. -/
def rowAnswers (symptom : String) (row : String) : List String :=
  match rowItems row with
  | none => []
  | some items => collectOpt (itemAnswersFor symptom) items

/-- Model of `get_answers_by_symptom(symptom, df)` (src/data_processor.py lines
70-91).  The source returns `list(set(all_answers))`; the set content is
modelled by `dedup`, the CPython set iteration order not being part of any
claim. -/
def getAnswersBySymptom (symptom : String) (df : List (Option String)) : List String :=
  ((df.filterMap (fun cell => cell.map (rowAnswers symptom))).flatten).dedup

/-- Prefix of stripped non-empty answers added by
`treatment_answers.update(a.strip() for a in ... if a.strip())` before a
non-string element raises; the flag records whether it raised. -/
def stripAnswersPartial : List JVal → List String × Bool
  | [] => ([], false)
  | JVal.str a :: rest =>
    let p := stripAnswersPartial rest
    ((if pyStrip a ≠ "" then [pyStrip a] else []) ++ p.1, p.2)
  | _ :: _ => ([], true)

/-- Per-item step of `get_treatment_answers` (src/data_processor.py lines
94-113). -/
def itemTreatment (it : JVal) : List String × Bool :=
  match it with
  | JVal.obj ikvs =>
    match textStrOf ikvs with
    | none => ([], true)
    | some t0 =>
      if pyStrip t0 = treatmentLabel then
        match pyIter (getKeyD ikvs "answers" (JVal.arr [])) with
        | none => ([], true)
        | some elems => stripAnswersPartial elems
      else ([], false)
  | _ => ([], true)

/-- Collect item results; a raising item contributes its partial prefix and
aborts the rest of the row. -/
def collectPartial (f : JVal → List String × Bool) : List JVal → List String
  | [] => []
  | it :: rest =>
    let p := f it
    if p.2 then p.1 else p.1 ++ collectPartial f rest

/-- Row contribution of `get_treatment_answers`. -/
def rowTreatment (row : String) : List String :=
  match rowItems row with
  | none => []
  | some items => collectPartial itemTreatment items

/-- Model of `get_treatment_answers(df)`: set of all treatment answers,
sorted. -/
def getTreatmentAnswers (df : List (Option String)) : List String :=
  sortStr (((df.filterMap (fun cell => cell.map rowTreatment)).flatten).dedup)

/-- Concatenated answer text of one symptom in `calculate_symptom_similarity`
(src/symptom_analyzer.py lines 171-185): `" ".join(answers)` over
`df['summary'].fillna("")`. -/
def symptomAnswerText (symptom : String) (df : List (Option String)) : String :=
  String.intercalate " " ((df.map (fun cell => rowAnswers symptom (cell.getD ""))).flatten)

/-- `valid_symptoms = [s for s in symptoms if symptom_answers[s]]`. -/
def validSymptoms (symptoms : List String) (df : List (Option String)) : List String :=
  symptoms.filter (fun s => decide (symptomAnswerText s df ≠ ""))

/-- Index of the similarity matrix: empty when fewer than 2 symptoms have
answers (`return pd.DataFrame()`), else the valid symptoms. -/
def simIndex (symptoms : List String) (df : List (Option String)) : List String :=
  if (validSymptoms symptoms df).length < 2 then [] else validSymptoms symptoms df

/-- Word characters of the `CountVectorizer` token pattern `\b\w+\b`:
Python's Unicode-aware `\w`, decided by the extracted range table. -/
def wordChar (c : Char) : Bool := inRanges c.toNat pyWordRanges

/-- Accumulate maximal word-character runs. -/
def tokenizeAux (cur : List Char) : List Char → List String
  | [] => if cur.isEmpty then [] else [String.mk cur.reverse]
  | c :: cs =>
    if wordChar c then tokenizeAux (c :: cur) cs
    else if cur.isEmpty then tokenizeAux [] cs
    else String.mk cur.reverse :: tokenizeAux [] cs

/-- `CountVectorizer` tokenization: lowercase, then maximal `\w+` runs. -/
def tokenize (s : String) : List String := tokenizeAux [] (pyLower s).data

/-- `CountVectorizer` vocabulary: the sorted set of tokens of the documents of
the valid symptoms only. -/
def vocabOf (symptoms : List String) (df : List (Option String)) : List String :=
  sortStr ((((validSymptoms symptoms df).map
    (fun s => tokenize (symptomAnswerText s df))).flatten).dedup)

/-- Term-frequency vector of one symptom document over the vocabulary. -/
def vecOf (symptoms : List String) (df : List (Option String)) (s : String) : List ℕ :=
  (vocabOf symptoms df).map (fun t => (tokenize (symptomAnswerText s df)).count t)

/-- Dot product of two count vectors. -/
def dotN (x y : List ℕ) : ℕ := (List.zipWith (· * ·) x y).sum

/-- Cosine similarity as computed by `sklearn.metrics.pairwise.cosine_similarity`,
in exact real arithmetic.  sklearn normalizes rows, replacing a zero norm by 1,
so a zero vector yields similarity 0; here the numerator is then 0 and Lean's
division-by-zero convention returns the same 0. -/
noncomputable def cosineSim (x y : List ℕ) : ℝ :=
  (dotN x y : ℝ) / (Real.sqrt (dotN x x) * Real.sqrt (dotN y y))

/-- Entry of the similarity matrix of `calculate_symptom_similarity` for two
symptom labels. -/
noncomputable def simEntry (symptoms : List String) (df : List (Option String))
    (s t : String) : ℝ :=
  cosineSim (vecOf symptoms df s) (vecOf symptoms df t)

/-- Number of times the nested loops of `calculate_symptom_cooccurrence`
(src/symptom_analyzer.py lines 62-67) increment the cell `(a, b)` for one
record's symptom set `c`: iterations with `symptom1 = a`, `symptom2 = b`,
`symptom1 ≠ symptom2`. -/
def comboInc (c : List String) (a b : String) : ℕ :=
  (c.map (fun s1 =>
    (c.map (fun s2 => if s1 ≠ s2 ∧ s1 = a ∧ s2 = b then 1 else 0)).sum)).sum

/-- Value of the cell `(a, b)` of the co-occurrence matrix: the total of all
increments over all records. -/
def coocEntry (combos : List (List String)) (a b : String) : ℕ :=
  combos.foldl (fun n c => n + comboInc c a b) 0

/-- Index of the co-occurrence matrix:
`sorted(list(set union of all combinations))`. -/
def matrixIndex (combos : List (List String)) : List String :=
  sortStr ((combos.flatten).dedup)

/-- Comparison used by `related.sort(key=lambda x: x[1], reverse=True)`:
descending by count; insertion sort with this relation is the stable
descending sort Python performs. -/
def countGE (p q : String × ℕ) : Prop := q.2 ≤ p.2

instance : DecidableRel countGE :=
  fun p q => inferInstanceAs (Decidable (q.2 ≤ p.2))

instance : IsTotal (String × ℕ) countGE :=
  ⟨fun a b => Nat.le_total b.2 a.2⟩

instance : IsTrans (String × ℕ) countGE :=
  ⟨fun _ _ _ h1 h2 => le_trans h2 h1⟩

/-- The filtered column of `find_most_related_symptoms`
(src/symptom_analyzer.py lines 84-88): pairs `(other, count)` in index order
with positive count and `other ≠ symptom`. -/
def relatedPre (index : List String) (M : String → String → ℕ) (s : String) :
    List (String × ℕ) :=
  (index.map (fun o => (o, M o s))).filter (fun p => decide (0 < p.2 ∧ p.1 ≠ s))

/-- The stable descending sort of the filtered column. -/
def relatedSorted (index : List String) (M : String → String → ℕ) (s : String) :
    List (String × ℕ) :=
  List.insertionSort countGE (relatedPre index M s)

/-- `related[:top_n]`. -/
def relatedTop (index : List String) (M : String → String → ℕ) (top_n : ℕ)
    (s : String) : List (String × ℕ) :=
  (relatedSorted index M s).take top_n

/-- Model of `find_most_related_symptoms`: one entry per matrix index row. -/
def findMostRelated (index : List String) (M : String → String → ℕ) (top_n : ℕ) :
    List (String × List (String × ℕ)) :=
  index.map (fun s => (s, relatedTop index M top_n s))

/-- The typo variant of the ATK treatment-history label. -/
def typoLabel : String := "ประวัติ ATK"

/-- The canonical spelling of the ATK treatment-history label. -/
def canonLabel : String := "ประวัติATK"

/-- Left-to-right non-overlapping replacement scan of Python `str.replace`
(fuelled; used only with a non-empty pattern). -/
def replaceAux (pat rep : List Char) : Nat → List Char → List Char
  | 0, cs => cs
  | _ + 1, [] => []
  | f + 1, c :: cs =>
    if pat.isPrefixOf (c :: cs) then
      rep ++ replaceAux pat rep f (List.drop pat.length (c :: cs))
    else c :: replaceAux pat rep f cs

/-- Python `s.replace(pat, rep)` for a non-empty pattern. -/
def pyReplace (s pat rep : String) : String :=
  String.mk (replaceAux pat.data rep.data (s.data.length + 1) s.data)

/-- `fillna("")` for one cell. -/
def fillnaCell (cell : Option String) : String := cell.getD ""

/-- Summary column after `load_data` (src/data_processor.py lines 20-24):
`fillna("")` then `str.replace("ประวัติ ATK", "ประวัติATK")`. -/
def loadSummaries (df : List (Option String)) : List (Option String) :=
  df.map (fun cell => some (pyReplace (fillnaCell cell) typoLabel canonLabel))

/-- Summary column as prepared inside `analyze_symptoms`
(src/symptom_analyzer.py lines 241-242): `fillna("")` only, no replacement. -/
def analyzeSummaries (df : List (Option String)) : List (Option String) :=
  df.map (fun cell => some (fillnaCell cell))

/-- Summary column after `standardize_data` (src/preprocess.py lines 100-104):
`str.replace` on the column, missing cells stay missing. -/
def standardizeSummaries (df : List (Option String)) : List (Option String) :=
  df.map (Option.map (fun s => pyReplace s typoLabel canonLabel))

/-- Whether `pat` occurs as a contiguous substring of the character list. -/
def containsPat (pat : List Char) : List Char → Bool
  | [] => pat.isPrefixOf []
  | c :: cs => pat.isPrefixOf (c :: cs) || containsPat pat cs

/-- Claim-facing predicate: the item records symptom `s` (stripped text) with
at least one answer that is a string and non-empty after trimming. -/
def itemHasAnswerFor (s : String) (it : JVal) : Bool :=
  match it with
  | JVal.obj ikvs =>
    match textStrOf ikvs with
    | none => false
    | some t0 =>
      (pyStrip t0 == s) &&
        ((pyIter (getKeyD ikvs "answers" (JVal.arr []))).getD []).any (fun v =>
          match v with
          | JVal.str a => pyStrip a != ""
          | _ => false)
  | _ => false

/-- Claim-facing predicate: some item of the row records symptom `s` with a
non-empty answer. -/
def rowHasSymptomWithAnswer (s : String) (row : String) : Bool :=
  match rowItems row with
  | none => false
  | some items => items.any (itemHasAnswerFor s)

/-- Split at the first space, as `ans.split(' ', 1)` does: `none` when the
string contains no space. -/
def splitFirstSpace : List Char → Option (List Char × List Char)
  | [] => none
  | c :: cs =>
    if c = ' ' then some ([], cs)
    else (splitFirstSpace cs).map (fun p => (c :: p.1, p.2))

/-- The sentinel group for answers without a space. -/
def sentinelGroup : String := "อื่นๆ"

/-- Group key of one answer in `group_answers` (src/data_processor.py lines
126-133). -/
def keyOf (ans : String) : String :=
  match splitFirstSpace ans.data with
  | some p => String.mk p.1
  | none => sentinelGroup

/-- `groups[key].append(ans)` on an insertion-ordered association list
(Python `defaultdict`). -/
def addToGroups : List (String × List String) → String → String → List (String × List String)
  | [], k, a => [(k, [a])]
  | (k0, l) :: rest, k, a =>
    if k0 = k then (k0, l ++ [a]) :: rest else (k0, l) :: addToGroups rest k a

/-- Order of `dict(sorted(groups.items()))`: ascending by group label. -/
def keyLE (p q : String × List String) : Prop := strLe p.1 q.1

instance : DecidableRel keyLE :=
  fun p q => inferInstanceAs (Decidable (strLe p.1 q.1))

/-- The `defaultdict` accumulation loop of `group_answers`. -/
def groupAnswersRaw (answers : List String) : List (String × List String) :=
  answers.foldl (fun gs a => addToGroups gs (keyOf a) a) []

/-- Model of `group_answers(answers)`: grouped, then sorted by group label. -/
def groupAnswers (answers : List String) : List (String × List String) :=
  List.insertionSort keyLE (groupAnswersRaw answers)

/-- The malformed summary field of the error-handling example. -/
def badRow : String := "\x7bnot json"

/-- The group labels in first-occurrence order, as the `defaultdict` creates
them. -/
def firstKeys (answers : List String) : List String :=
  answers.foldl (fun ks x => if keyOf x ∈ ks then ks else ks ++ [keyOf x]) []

/-- Record with symptom texts `A` and `B` (the spec example). -/
def rowAB : String := "\x7b\"yes_symptoms\": [\x7b\"text\": \"A\"\x7d, \x7b\"text\": \"B\"\x7d]\x7d"

/-- Record with symptom texts `A` and `C` (the spec example). -/
def rowAC : String := "\x7b\"yes_symptoms\": [\x7b\"text\": \"A\"\x7d, \x7b\"text\": \"C\"\x7d]\x7d"

/-- The three-record dataset of the spec example. -/
def df3 : List (Option String) := [some rowAB, some rowAB, some rowAC]

/-- Record whose symptom `s1` has the single answer `-`, which contains no
word character. -/
def rowS1 : String := "\x7b\"yes_symptoms\": [\x7b\"text\": \"s1\", \"answers\": [\"-\"]\x7d]\x7d"

/-- Record whose symptom `s2` has the answer `a a`. -/
def rowS2 : String := "\x7b\"yes_symptoms\": [\x7b\"text\": \"s2\", \"answers\": [\"a a\"]\x7d]\x7d"

/-- Two-record dataset in which both symptoms qualify for similarity but the
document of `s1` has no tokens. -/
def dfC5 : List (Option String) := [some rowS1, some rowS2]

/-- Record whose Thai symptom `ปวดหัว` has the Thai answer `ปวดมาก`. -/
def rowThai1 : String := "\x7b\"yes_symptoms\": [\x7b\"text\": \"ปวดหัว\", \"answers\": [\"ปวดมาก\"]\x7d]\x7d"

/-- Record whose Thai symptom `ไอ` has the Thai answer `ไอแห้ง`. -/
def rowThai2 : String := "\x7b\"yes_symptoms\": [\x7b\"text\": \"ไอ\", \"answers\": [\"ไอแห้ง\"]\x7d]\x7d"

/-- Two-record Thai dataset in which both symptoms qualify for similarity and
their documents have word tokens. -/
def dfThai : List (Option String) := [some rowThai1, some rowThai2]

/-- Record containing the typo label together with a second symptom. -/
def rowTypo : String := "\x7b\"yes_symptoms\": [\x7b\"text\": \"ประวัติ ATK\"\x7d, \x7b\"text\": \"ไข้\"\x7d]\x7d"

lemma foldl_add_map {α : Type} (g : α → ℕ) :
    ∀ (l : List α) (n : ℕ), l.foldl (fun m c => m + g c) n = n + (l.map g).sum
  | [], n => by simp
  | c :: l, n => by
    simp only [List.foldl_cons, List.map_cons, List.sum_cons]
    rw [foldl_add_map g l]
    omega

lemma coocEntry_eq_sum (combos : List (List String)) (a b : String) :
    coocEntry combos a b = (combos.map (fun c => comboInc c a b)).sum := by
  unfold coocEntry
  rw [foldl_add_map]
  simp

lemma map_sum_add {α : Type} (l : List α) (f g : α → ℕ) :
    (l.map (fun x => f x + g x)).sum = (l.map f).sum + (l.map g).sum := by
  induction l with
  | nil => rfl
  | cons a l ih =>
    simp only [List.map_cons, List.sum_cons, ih]
    omega

lemma map_sum_zero {α : Type} (l : List α) : (l.map (fun _ => (0 : ℕ))).sum = 0 := by
  induction l with
  | nil => rfl
  | cons a l ih => simp [ih]

lemma sum_swap {α β : Type} (c : List α) (d : List β) (f : α → β → ℕ) :
    (c.map (fun x => (d.map (fun y => f x y)).sum)).sum =
      (d.map (fun y => (c.map (fun x => f x y)).sum)).sum := by
  induction c with
  | nil => simp [map_sum_zero]
  | cons a c ih =>
    simp only [List.map_cons, List.sum_cons, ih, ← map_sum_add]

lemma sum_indicator_eq (c : List String) (hnd : c.Nodup) (b : String) (v : ℕ) :
    (c.map (fun s2 => if s2 = b then v else 0)).sum = if b ∈ c then v else 0 := by
  induction c with
  | nil => simp
  | cons x t ih =>
    obtain ⟨hx, ht⟩ := List.nodup_cons.mp hnd
    rw [List.map_cons, List.sum_cons]
    by_cases hxb : x = b
    · subst hxb
      rw [if_pos rfl, if_pos (List.mem_cons_self _ _)]
      have hz : (t.map (fun s2 => if s2 = x then v else 0)).sum = 0 := by
        apply List.sum_eq_zero
        intro y hy
        obtain ⟨s2, hs2, rfl⟩ := List.mem_map.mp hy
        rw [if_neg (by rintro rfl; exact hx hs2)]
      omega
    · rw [if_neg hxb, ih ht]
      by_cases hb : b ∈ t
      · rw [if_pos hb, if_pos (List.mem_cons_of_mem _ hb)]
        omega
      · rw [if_neg hb, if_neg (by
          rw [List.mem_cons]
          rintro (h | h)
          · exact hxb h.symm
          · exact hb h)]

lemma comboInc_eq (c : List String) (hnd : c.Nodup) (a b : String) :
    comboInc c a b = if a ∈ c ∧ b ∈ c ∧ a ≠ b then 1 else 0 := by
  unfold comboInc
  by_cases hab : a = b
  · subst hab
    rw [if_neg (by tauto)]
    apply List.sum_eq_zero
    intro x hx
    obtain ⟨s1, _, rfl⟩ := List.mem_map.mp hx
    apply List.sum_eq_zero
    intro y hy
    obtain ⟨s2, _, rfl⟩ := List.mem_map.mp hy
    exact if_neg (by rintro ⟨h1, rfl, rfl⟩; exact h1 rfl)
  · have hin : ∀ s1 : String,
        (c.map (fun s2 => if s1 ≠ s2 ∧ s1 = a ∧ s2 = b then (1 : ℕ) else 0)).sum =
          if s1 = a then (if b ∈ c then 1 else 0) else 0 := by
      intro s1
      by_cases h1 : s1 = a
      · subst h1
        rw [if_pos rfl, ← sum_indicator_eq c hnd b 1]
        congr 1
        refine List.map_congr_left fun s2 _ => ?_
        refine if_congr ?_ rfl rfl
        constructor
        · rintro ⟨_, _, h3⟩; exact h3
        · rintro rfl; exact ⟨hab, rfl, rfl⟩
      · rw [if_neg h1]
        apply List.sum_eq_zero
        intro y hy
        obtain ⟨s2, _, rfl⟩ := List.mem_map.mp hy
        exact if_neg (by rintro ⟨_, h2, _⟩; exact h1 h2)
    calc (c.map (fun s1 =>
            (c.map (fun s2 => if s1 ≠ s2 ∧ s1 = a ∧ s2 = b then (1 : ℕ) else 0)).sum)).sum
        = (c.map (fun s1 => if s1 = a then (if b ∈ c then 1 else 0) else 0)).sum :=
          congrArg List.sum (List.map_congr_left fun s1 _ => hin s1)
      _ = if a ∈ c then (if b ∈ c then 1 else 0) else 0 := sum_indicator_eq c hnd a _
      _ = if a ∈ c ∧ b ∈ c ∧ a ≠ b then 1 else 0 := by
          by_cases ha : a ∈ c <;> by_cases hb : b ∈ c <;> simp [ha, hb, hab]

lemma coocEntry_count (combos : List (List String)) (hc : ∀ c ∈ combos, c.Nodup)
    (a b : String) (hab : a ≠ b) :
    coocEntry combos a b =
      (combos.filter (fun c => decide (a ∈ c ∧ b ∈ c))).length := by
  rw [coocEntry_eq_sum]
  induction combos with
  | nil => rfl
  | cons c rest ih =>
    rw [List.map_cons, List.sum_cons,
      ih (fun c2 hc2 => hc c2 (List.mem_cons_of_mem _ hc2)), List.filter_cons,
      comboInc_eq c (hc c (List.mem_cons_self _ _)) a b]
    by_cases h : a ∈ c ∧ b ∈ c
    · rw [if_pos ⟨h.1, h.2, hab⟩, decide_eq_true h]
      simp only [if_true, List.length_cons]
      omega
    · rw [if_neg (by tauto), decide_eq_false h]
      simp only [Bool.false_eq_true, if_false]
      omega

lemma comboInc_comm (c : List String) (a b : String) :
    comboInc c a b = comboInc c b a := by
  unfold comboInc
  rw [sum_swap]
  congr 1
  refine List.map_congr_left fun s2 _ => ?_
  congr 1
  refine List.map_congr_left fun s1 _ => ?_
  refine if_congr ?_ rfl rfl
  constructor
  · rintro ⟨h1, rfl, rfl⟩; exact ⟨h1.symm, rfl, rfl⟩
  · rintro ⟨h1, rfl, rfl⟩; exact ⟨h1.symm, rfl, rfl⟩

lemma coocEntry_comm (combos : List (List String)) (a b : String) :
    coocEntry combos a b = coocEntry combos b a := by
  rw [coocEntry_eq_sum, coocEntry_eq_sum]
  congr 1
  exact List.map_congr_left fun c _ => comboInc_comm c a b

lemma comboInc_diag (c : List String) (a : String) : comboInc c a a = 0 := by
  unfold comboInc
  apply List.sum_eq_zero
  intro x hx
  obtain ⟨s1, _, rfl⟩ := List.mem_map.mp hx
  apply List.sum_eq_zero
  intro y hy
  obtain ⟨s2, _, rfl⟩ := List.mem_map.mp hy
  exact if_neg (by rintro ⟨h1, rfl, rfl⟩; exact h1 rfl)

lemma coocEntry_diag (combos : List (List String)) (a : String) :
    coocEntry combos a a = 0 := by
  rw [coocEntry_eq_sum]
  apply List.sum_eq_zero
  intro x hx
  obtain ⟨c, _, rfl⟩ := List.mem_map.mp hx
  exact comboInc_diag c a

lemma sum_const_list {α : Type} (l : List α) (k : ℕ) :
    (l.map (fun _ => k)).sum = l.length * k := by
  induction l with
  | nil => simp
  | cons a l ih =>
    simp only [List.map_cons, List.sum_cons, ih, List.length_cons]
    ring

lemma sum_ne_indicator (c : List String) (hnd : c.Nodup) (x : String) (hx : x ∈ c) :
    (c.map (fun y => if x ≠ y then (1 : ℕ) else 0)).sum = c.length - 1 := by
  induction c with
  | nil => simp at hx
  | cons z t ih =>
    obtain ⟨hz, ht⟩ := List.nodup_cons.mp hnd
    rw [List.map_cons, List.sum_cons]
    rcases List.mem_cons.mp hx with rfl | hxt
    · rw [if_neg (by tauto)]
      have hall : (t.map (fun y => if x ≠ y then (1 : ℕ) else 0)).sum =
          (t.map (fun _ => (1 : ℕ))).sum := by
        congr 1
        refine List.map_congr_left fun y hy => ?_
        exact if_pos (by rintro rfl; exact hz hy)
      rw [hall, sum_const_list]
      simp [List.length_cons]
    · have hne : x ≠ z := by rintro rfl; exact hz hxt
      rw [if_pos hne, ih ht hxt]
      have hpos : 0 < t.length := List.length_pos_of_mem hxt
      simp only [List.length_cons]
      omega

lemma comboInc_total (c : List String) (hnd : c.Nodup) :
    (c.map (fun x => (c.map (fun y => comboInc c x y)).sum)).sum =
      c.length * (c.length - 1) := by
  have hpt : ∀ x ∈ c, (c.map (fun y => comboInc c x y)).sum = c.length - 1 := by
    intro x hx
    have h1 : (c.map (fun y => comboInc c x y)).sum =
        (c.map (fun y => if x ≠ y then (1 : ℕ) else 0)).sum := by
      congr 1
      refine List.map_congr_left fun y hy => ?_
      rw [comboInc_eq c hnd x y]
      by_cases hxy : x = y
      · simp [hxy]
      · simp [hxy, hx, hy]
    rw [h1, sum_ne_indicator c hnd x hx]
  calc (c.map (fun x => (c.map (fun y => comboInc c x y)).sum)).sum
      = (c.map (fun _ => c.length - 1)).sum :=
        congrArg List.sum (List.map_congr_left hpt)
    _ = c.length * (c.length - 1) := sum_const_list c _

lemma amgm_int (a c S X Y : ℤ) (ha : 0 ≤ a) (hc : 0 ≤ c) (hS : 0 ≤ S)
    (hX : 0 ≤ X) (hY : 0 ≤ Y) (h : S * S ≤ X * Y) :
    2 * (a * c) * S ≤ a * a * Y + c * c * X := by
  have hu : 0 ≤ 2 * (a * c) * S := by positivity
  have hv : 0 ≤ a * a * Y + c * c * X := by positivity
  have h1 : (2 * (a * c) * S) ^ 2 ≤ 4 * (a * c) ^ 2 * (X * Y) := by
    nlinarith [mul_le_mul_of_nonneg_left h (by positivity : (0:ℤ) ≤ 4 * (a * c) ^ 2)]
  have h2 : 4 * (a * c) ^ 2 * (X * Y) ≤ (a * a * Y + c * c * X) ^ 2 := by
    nlinarith [sq_nonneg (a * a * Y - c * c * X)]
  exact (pow_le_pow_iff_left₀ hu hv (by norm_num)).mp (le_trans h1 h2)

/-- Cauchy-Schwarz inequality for the dot product of count vectors. -/
lemma dotN_sq_le : ∀ x y : List ℕ, dotN x y * dotN x y ≤ dotN x x * dotN y y
  | [], y => by simp [dotN]
  | a :: x, [] => by simp [dotN]
  | a :: x, c :: y => by
    have ih := dotN_sq_le x y
    have hd : dotN (a :: x) (c :: y) = a * c + dotN x y := by simp [dotN]
    have hx : dotN (a :: x) (a :: x) = a * a + dotN x x := by simp [dotN]
    have hy : dotN (c :: y) (c :: y) = c * c + dotN y y := by simp [dotN]
    rw [hd, hx, hy]
    have key : 2 * (a * c) * dotN x y ≤ a * a * dotN y y + c * c * dotN x x := by
      have := amgm_int (a : ℤ) (c : ℤ) (dotN x y : ℤ) (dotN x x : ℤ) (dotN y y : ℤ)
        (by positivity) (by positivity) (by positivity) (by positivity) (by positivity)
        (by exact_mod_cast ih)
      exact_mod_cast this
    nlinarith [key, ih]

lemma cosineSim_nonneg (x y : List ℕ) : 0 ≤ cosineSim x y :=
  div_nonneg (Nat.cast_nonneg _) (mul_nonneg (Real.sqrt_nonneg _) (Real.sqrt_nonneg _))

lemma cosineSim_le_one (x y : List ℕ) : cosineSim x y ≤ 1 := by
  unfold cosineSim
  rcases Nat.eq_zero_or_pos (dotN x x * dotN y y) with h0 | hpos
  · have hd : dotN x y = 0 := by
      have hcs := dotN_sq_le x y
      rw [h0] at hcs
      exact mul_self_eq_zero.mp (Nat.le_antisymm hcs (Nat.zero_le _))
    simp [hd]
  · have hxx : 0 < dotN x x := by
      rcases Nat.eq_zero_or_pos (dotN x x) with h | h
      · rw [h] at hpos; simp at hpos
      · exact h
    have hyy : 0 < dotN y y := by
      rcases Nat.eq_zero_or_pos (dotN y y) with h | h
      · rw [h] at hpos; simp at hpos
      · exact h
    have hden : 0 < Real.sqrt (dotN x x) * Real.sqrt (dotN y y) := by
      apply mul_pos <;> exact Real.sqrt_pos.mpr (by exact_mod_cast ‹0 < _›)
    rw [div_le_one hden]
    have hcs : ((dotN x y : ℝ)) * ((dotN x y : ℝ)) ≤ ((dotN x x : ℝ)) * ((dotN y y : ℝ)) := by
      exact_mod_cast dotN_sq_le x y
    calc (dotN x y : ℝ)
        = Real.sqrt ((dotN x y : ℝ) * (dotN x y : ℝ)) :=
          (Real.sqrt_mul_self (Nat.cast_nonneg _)).symm
      _ ≤ Real.sqrt ((dotN x x : ℝ) * (dotN y y : ℝ)) := Real.sqrt_le_sqrt hcs
      _ = Real.sqrt (dotN x x) * Real.sqrt (dotN y y) :=
          Real.sqrt_mul (Nat.cast_nonneg _) _

lemma dotN_comm (x y : List ℕ) : dotN x y = dotN y x := by
  unfold dotN
  rw [List.zipWith_comm_of_comm]
  exact fun a b => Nat.mul_comm a b

lemma cosineSim_comm (x y : List ℕ) : cosineSim x y = cosineSim y x := by
  unfold cosineSim
  rw [dotN_comm x y, mul_comm]

lemma cosineSim_self (x : List ℕ) (h : dotN x x ≠ 0) : cosineSim x x = 1 := by
  unfold cosineSim
  rw [Real.mul_self_sqrt (Nat.cast_nonneg _)]
  exact div_self (by exact_mod_cast h)

lemma dotN_self_ne_zero (v : List ℕ) (h : ∃ n ∈ v, n ≠ 0) : dotN v v ≠ 0 := by
  obtain ⟨n, hn, hne⟩ := h
  unfold dotN
  intro hsum
  have hall := List.sum_eq_zero_iff.mp hsum
  have : n * n = 0 := by
    apply hall
    have : List.zipWith (· * ·) v v = v.map (fun m => m * m) := by
      induction v with
      | nil => rfl
      | cons a v ih => simp [ih]
    rw [this]
    exact List.mem_map.mpr ⟨n, hn, rfl⟩
  exact hne (mul_self_eq_zero.mp this)

lemma orderedInsert_filter_count (a : String × ℕ) (L : List (String × ℕ)) (c : ℕ) :
    (List.orderedInsert countGE a L).filter (fun p => decide (p.2 = c)) =
      if a.2 = c then a :: L.filter (fun p => decide (p.2 = c))
      else L.filter (fun p => decide (p.2 = c)) := by
  induction L with
  | nil =>
    by_cases hac : a.2 = c <;> simp [List.orderedInsert, List.filter, hac]
  | cons b L ih =>
    rw [List.orderedInsert]
    by_cases hab : countGE a b
    · rw [if_pos hab]
      by_cases hac : a.2 = c <;> simp [List.filter_cons, hac]
    · rw [if_neg hab]
      have hlt : a.2 < b.2 := Nat.lt_of_not_le hab
      by_cases hbc : b.2 = c
      · have hac : a.2 ≠ c := by omega
        simp [List.filter_cons, hbc, hac, ih]
      · by_cases hac : a.2 = c <;> simp [List.filter_cons, hbc, hac, ih]

lemma insertionSort_filter_count (l : List (String × ℕ)) (c : ℕ) :
    (List.insertionSort countGE l).filter (fun p => decide (p.2 = c)) =
      l.filter (fun p => decide (p.2 = c)) := by
  induction l with
  | nil => rfl
  | cons a l ih =>
    rw [List.insertionSort, orderedInsert_filter_count, List.filter_cons]
    by_cases hac : a.2 = c <;> simp [hac, ih]

lemma lexLe_total : ∀ a b : List Char, lexLe a b = true ∨ lexLe b a = true
  | [], _ => Or.inl rfl
  | _ :: _, [] => Or.inr rfl
  | c :: cs, d :: ds => by
    unfold lexLe
    rcases Nat.lt_trichotomy c.toNat d.toNat with h | h | h
    · left
      rw [if_pos h]
    · rw [if_neg (by omega), if_neg (by omega), if_neg (by omega), if_neg (by omega)]
      exact lexLe_total cs ds
    · right
      rw [if_pos h]

lemma lexLe_trans : ∀ a b c : List Char,
    lexLe a b = true → lexLe b c = true → lexLe a c = true
  | [], _, _, _, _ => rfl
  | _ :: _, [], _, h1, _ => by exact absurd h1 (by rw [lexLe]; simp)
  | _ :: _, _ :: _, [], _, h2 => by exact absurd h2 (by rw [lexLe]; simp)
  | x :: xs, y :: ys, z :: zs, h1, h2 => by
    rw [lexLe] at h1 h2 ⊢
    by_cases hxy : x.toNat < y.toNat
    · by_cases hyz : y.toNat < z.toNat
      · rw [if_pos (by omega)]
      · by_cases hzy : z.toNat < y.toNat
        · rw [if_neg hyz, if_pos hzy] at h2
          cases h2
        · rw [if_pos (by omega)]
    · by_cases hyx : y.toNat < x.toNat
      · rw [if_neg hxy, if_pos hyx] at h1
        cases h1
      · rw [if_neg hxy, if_neg hyx] at h1
        by_cases hyz : y.toNat < z.toNat
        · rw [if_pos (by omega)]
        · by_cases hzy : z.toNat < y.toNat
          · rw [if_neg hyz, if_pos hzy] at h2
            cases h2
          · rw [if_neg hyz, if_neg hzy] at h2
            rw [if_neg (by omega), if_neg (by omega)]
            exact lexLe_trans xs ys zs h1 h2

instance : IsTotal String strLe :=
  ⟨fun a b => lexLe_total a.data b.data⟩

instance : IsTrans String strLe :=
  ⟨fun a b c h1 h2 => lexLe_trans a.data b.data c.data h1 h2⟩

instance : IsTotal (String × List String) keyLE :=
  ⟨fun a b => lexLe_total a.1.data b.1.data⟩

instance : IsTrans (String × List String) keyLE :=
  ⟨fun a b c h1 h2 => lexLe_trans a.1.data b.1.data c.1.data h1 h2⟩

lemma sortStr_sorted (l : List String) : (sortStr l).Sorted strLe :=
  List.sorted_insertionSort _ l

lemma sortStr_perm (l : List String) : List.Perm (sortStr l) l :=
  List.perm_insertionSort _ l

lemma sortStr_nodup {l : List String} (h : l.Nodup) : (sortStr l).Nodup :=
  (sortStr_perm l).nodup_iff.mpr h

lemma mem_sortStr {s : String} {l : List String} : s ∈ sortStr l ↔ s ∈ l :=
  (sortStr_perm l).mem_iff

lemma mem_validSymptoms {s : String} {syms : List String} {df : List (Option String)} :
    s ∈ validSymptoms syms df ↔ s ∈ syms ∧ symptomAnswerText s df ≠ "" := by
  simp [validSymptoms, List.mem_filter]

lemma simIndex_subset {s : String} {syms : List String} {df : List (Option String)}
    (h : s ∈ simIndex syms df) : s ∈ validSymptoms syms df := by
  unfold simIndex at h
  split at h
  · simp at h
  · exact h

lemma mem_vocabOf {t : String} {syms : List String} {df : List (Option String)} :
    t ∈ vocabOf syms df ↔
      ∃ s ∈ validSymptoms syms df, t ∈ tokenize (symptomAnswerText s df) := by
  unfold vocabOf
  rw [mem_sortStr, List.mem_dedup, List.mem_flatten]
  constructor
  · rintro ⟨l, hl, ht⟩
    obtain ⟨s, hs, rfl⟩ := List.mem_map.mp hl
    exact ⟨s, hs, ht⟩
  · rintro ⟨s, hs, ht⟩
    exact ⟨tokenize (symptomAnswerText s df), List.mem_map.mpr ⟨s, hs, rfl⟩, ht⟩

lemma vec_self_ne_zero {syms : List String} {df : List (Option String)} {s : String}
    (hs : s ∈ validSymptoms syms df) (ht : tokenize (symptomAnswerText s df) ≠ []) :
    dotN (vecOf syms df s) (vecOf syms df s) ≠ 0 := by
  obtain ⟨t0, ht0⟩ := List.exists_mem_of_ne_nil _ ht
  apply dotN_self_ne_zero
  refine ⟨(tokenize (symptomAnswerText s df)).count t0, ?_, ?_⟩
  · exact List.mem_map.mpr ⟨t0, mem_vocabOf.mpr ⟨s, hs, ht0⟩, rfl⟩
  · have := List.count_pos_iff.mpr ht0
    omega

lemma rowItems_badRow : rowItems badRow = none := rfl

lemma rowCombo_badRow : rowCombo badRow = none := rfl

lemma rowAllTexts_badRow : rowAllTexts badRow = [] := rfl

lemma rowAnswers_badRow (s : String) : rowAnswers s badRow = [] := rfl

lemma rowTreatment_badRow : rowTreatment badRow = [] := rfl

lemma symptomAnswerText_skip (pre post : List (Option String)) (s : String) :
    symptomAnswerText s (pre ++ some badRow :: post) = symptomAnswerText s (pre ++ post) := by
  unfold symptomAnswerText
  rw [List.map_append, List.map_append, List.map_cons, List.flatten_append,
    List.flatten_append, List.flatten_cons]
  simp [rowAnswers_badRow]

lemma validSymptoms_skip (pre post : List (Option String)) (syms : List String) :
    validSymptoms syms (pre ++ some badRow :: post) = validSymptoms syms (pre ++ post) := by
  unfold validSymptoms
  exact List.filter_congr fun s _ => by rw [symptomAnswerText_skip]

lemma vocabOf_skip (pre post : List (Option String)) (syms : List String) :
    vocabOf syms (pre ++ some badRow :: post) = vocabOf syms (pre ++ post) := by
  unfold vocabOf
  rw [validSymptoms_skip]
  congr 1
  congr 1
  congr 1
  exact List.map_congr_left fun s _ => by rw [symptomAnswerText_skip]

lemma vecOf_skip (pre post : List (Option String)) (syms : List String) (s : String) :
    vecOf syms (pre ++ some badRow :: post) s = vecOf syms (pre ++ post) s := by
  unfold vecOf
  rw [vocabOf_skip]
  exact List.map_congr_left fun t _ => by rw [symptomAnswerText_skip]

lemma replaceAux_not_contains (pat rep : List Char) :
    ∀ (fuel : Nat) (cs : List Char), containsPat pat cs = false →
      replaceAux pat rep fuel cs = cs
  | 0, cs, _ => rfl
  | _ + 1, [], _ => rfl
  | f + 1, c :: cs, h => by
    unfold containsPat at h
    rw [Bool.or_eq_false_iff] at h
    unfold replaceAux
    rw [if_neg (by rw [h.1]; exact Bool.false_ne_true)]
    rw [replaceAux_not_contains pat rep f cs h.2]

lemma pyReplace_not_contains (s pat rep : String)
    (h : containsPat pat.data s.data = false) : pyReplace s pat rep = s := by
  unfold pyReplace
  rw [replaceAux_not_contains pat.data rep.data _ s.data h]

lemma mem_collectTexts {s : String} :
    ∀ {items : List JVal}, s ∈ collectTexts items →
      ∃ it ∈ items, itemTextOK it = some (some s) := by
  intro items
  induction items with
  | nil => intro h; simp [collectTexts] at h
  | cons it rest ih =>
    intro h
    unfold collectTexts at h
    split at h
    · simp at h
    · obtain ⟨it2, h1, h2⟩ := ih h
      exact ⟨it2, List.mem_cons_of_mem _ h1, h2⟩
    · rename_i t heq
      rcases List.mem_cons.mp h with rfl | hrest
      · exact ⟨it, List.mem_cons_self _ _, heq⟩
      · obtain ⟨it2, h1, h2⟩ := ih hrest
        exact ⟨it2, List.mem_cons_of_mem _ h1, h2⟩

lemma scanStrs_true :
    ∀ {elems : List JVal}, scanStrs elems = some true →
      ∃ v ∈ elems, ∃ a, v = JVal.str a ∧ pyStrip a ≠ "" := by
  intro elems
  induction elems with
  | nil => intro h; simp [scanStrs] at h
  | cons v rest ih =>
    intro h
    cases v with
    | str a =>
      rw [scanStrs] at h
      split at h
      · rename_i hne
        exact ⟨JVal.str a, List.mem_cons_self _ _, a, rfl, hne⟩
      · obtain ⟨v2, h1, h2⟩ := ih h
        exact ⟨v2, List.mem_cons_of_mem _ h1, h2⟩
    | num q => simp [scanStrs] at h
    | bool b => simp [scanStrs] at h
    | null => simp [scanStrs] at h
    | arr xs => simp [scanStrs] at h
    | obj kvs => simp [scanStrs] at h

lemma itemTextOK_full {it : JVal} {s : String} (h : itemTextOK it = some (some s)) :
    s ≠ "" ∧ s ≠ treatmentLabel ∧ itemHasAnswerFor s it = true := by
  cases it with
  | str a => simp [itemTextOK] at h
  | num q => simp [itemTextOK] at h
  | bool b => simp [itemTextOK] at h
  | null => simp [itemTextOK] at h
  | arr xs => simp [itemTextOK] at h
  | obj ikvs =>
    rw [itemTextOK] at h
    cases htext : textStrOf ikvs with
    | none => rw [htext] at h; exact absurd h (by simp)
    | some t0 =>
      rw [htext] at h
      simp only at h
      split at h
      · rename_i hcond
        cases hany : pyAnyStripTruthy (getKeyD ikvs "answers" (JVal.arr [])) with
        | none => rw [hany] at h; exact absurd h (by simp)
        | some b =>
          rw [hany] at h
          cases b with
          | false => simp at h
          | true =>
            simp only [if_true] at h
            have hts : pyStrip t0 = s := by
              have := Option.some.inj (Option.some.inj h)
              exact this
            obtain ⟨h1, h2, _⟩ := hcond
            rw [hts] at h1 h2
            refine ⟨h1, h2, ?_⟩
            rw [itemHasAnswerFor, htext]
            simp only
            rw [Bool.and_eq_true]
            constructor
            · exact beq_iff_eq.mpr hts
            · rw [pyAnyStripTruthy] at hany
              cases hiter : pyIter (getKeyD ikvs "answers" (JVal.arr [])) with
              | none => rw [hiter] at hany; exact absurd hany (by simp)
              | some elems =>
                rw [hiter] at hany
                simp only [hiter, Option.getD_some]
                obtain ⟨v, hv, a, hva, ha⟩ := scanStrs_true hany
                subst hva
                refine List.any_eq_true.mpr ⟨JVal.str a, hv, ?_⟩
                exact bne_iff_ne.mpr ha
      · exact absurd h (by simp)

lemma mem_extractAllSymptoms {s : String} {df : List (Option String)}
    (h : s ∈ extractAllSymptoms df) :
    ∃ row : String, some row ∈ df ∧ s ∈ rowAllTexts row := by
  unfold extractAllSymptoms at h
  rw [mem_sortStr, List.mem_dedup, List.mem_flatten] at h
  obtain ⟨l, hl, hs⟩ := h
  obtain ⟨cell, hcell, hmap⟩ := List.mem_filterMap.mp hl
  cases cell with
  | none => simp at hmap
  | some row =>
    refine ⟨row, hcell, ?_⟩
    have hl2 : rowAllTexts row = l := by simpa using hmap
    rw [hl2]
    exact hs

lemma rowAllTexts_cases {s row : String} (h : s ∈ rowAllTexts row) :
    ∃ items, rowItems row = some items ∧ s ∈ collectTexts items := by
  unfold rowAllTexts at h
  split at h
  · simp at h
  · rename_i items heq
    exact ⟨items, heq, h⟩

lemma rowHas_of_mem {s row : String} (h : s ∈ rowAllTexts row) :
    s ≠ "" ∧ s ≠ treatmentLabel ∧ rowHasSymptomWithAnswer s row = true := by
  obtain ⟨items, hit, hmem⟩ := rowAllTexts_cases h
  obtain ⟨it, hin, heq⟩ := mem_collectTexts hmem
  obtain ⟨h1, h2, h3⟩ := itemTextOK_full heq
  refine ⟨h1, h2, ?_⟩
  rw [rowHasSymptomWithAnswer, hit]
  exact List.any_eq_true.mpr ⟨it, hin, h3⟩

lemma firstKeys_snoc (l : List String) (a : String) :
    firstKeys (l ++ [a]) =
      if keyOf a ∈ firstKeys l then firstKeys l else firstKeys l ++ [keyOf a] := by
  unfold firstKeys
  rw [List.foldl_append]
  rfl

lemma mem_firstKeys {k : String} : ∀ {l : List String}, k ∈ firstKeys l ↔ k ∈ l.map keyOf := by
  intro l
  induction l using List.reverseRecOn with
  | nil => simp [firstKeys]
  | append_singleton l a ih =>
    rw [firstKeys_snoc, List.map_append]
    split
    · rename_i hin
      simp only [List.mem_append, List.map_cons, List.map_nil, List.mem_singleton]
      constructor
      · intro h; exact Or.inl (ih.mp h)
      · rintro (h | rfl)
        · exact ih.mpr h
        · exact hin
    · simp [ih]

lemma firstKeys_nodup : ∀ (l : List String), (firstKeys l).Nodup := by
  intro l
  induction l using List.reverseRecOn with
  | nil => simp [firstKeys]
  | append_singleton l a ih =>
    rw [firstKeys_snoc]
    split
    · exact ih
    · rename_i hnin
      simp [List.nodup_append, ih, hnin]

lemma addToGroups_map (K : List String) (f : String → List String) (k0 a : String)
    (hnd : K.Nodup) :
    addToGroups (K.map (fun k => (k, f k))) k0 a =
      if k0 ∈ K then K.map (fun k => (k, if k = k0 then f k ++ [a] else f k))
      else K.map (fun k => (k, f k)) ++ [(k0, [a])] := by
  induction K with
  | nil => simp [addToGroups]
  | cons k1 K ih =>
    obtain ⟨hk1, hndK⟩ := List.nodup_cons.mp hnd
    rw [List.map_cons, addToGroups]
    by_cases he : k1 = k0
    · subst he
      rw [if_pos rfl, if_pos (List.mem_cons_self _ _), List.map_cons, if_pos rfl]
      congr 1
      exact List.map_congr_left fun k hk => by
        rw [if_neg (by rintro rfl; exact hk1 hk)]
    · rw [if_neg he, ih hndK]
      by_cases hin : k0 ∈ K
      · rw [if_pos hin, if_pos (List.mem_cons_of_mem _ hin), List.map_cons,
          if_neg he]
      · rw [if_neg hin,
          if_neg (by rw [List.mem_cons]; rintro (h | h); exact he h.symm; exact hin h)]
        rfl

lemma groupAnswersRaw_snoc (l : List String) (a : String) :
    groupAnswersRaw (l ++ [a]) = addToGroups (groupAnswersRaw l) (keyOf a) a := by
  unfold groupAnswersRaw
  rw [List.foldl_append]
  rfl

lemma filter_key_nil {l : List String} {k : String} (h : k ∉ l.map keyOf) :
    l.filter (fun x => decide (keyOf x = k)) = [] := by
  rw [List.filter_eq_nil_iff]
  intro x hx
  simp only [decide_eq_true_eq]
  intro he
  exact h (List.mem_map.mpr ⟨x, hx, he⟩)

lemma groupAnswersRaw_struct (answers : List String) :
    groupAnswersRaw answers =
      (firstKeys answers).map
        (fun k => (k, answers.filter (fun x => decide (keyOf x = k)))) := by
  induction answers using List.reverseRecOn with
  | nil => rfl
  | append_singleton l a ih =>
    rw [groupAnswersRaw_snoc, ih, addToGroups_map _ _ _ _ (firstKeys_nodup l),
      firstKeys_snoc]
    by_cases hin : keyOf a ∈ firstKeys l
    · rw [if_pos hin, if_pos hin]
      refine List.map_congr_left fun k hk => ?_
      rw [List.filter_append]
      congr 1
      by_cases hkk : k = keyOf a
      · subst hkk
        simp [List.filter_cons]
      · rw [if_neg hkk]
        have hkk2 : keyOf a ≠ k := Ne.symm hkk
        simp [List.filter_cons, hkk2]
    · rw [if_neg hin, if_neg hin, List.map_append]
      congr 1
      · refine List.map_congr_left fun k hk => ?_
        rw [List.filter_append]
        have hkk : keyOf a ≠ k := by rintro rfl; exact hin hk
        simp [List.filter_cons, hkk]
      · simp only [List.map_cons, List.map_nil]
        congr 2
        rw [List.filter_append, filter_key_nil (fun h => hin (mem_firstKeys.mpr h))]
        simp [List.filter_cons]

lemma groupAnswers_perm (answers : List String) :
    List.Perm (groupAnswers answers) (groupAnswersRaw answers) :=
  List.perm_insertionSort keyLE _

lemma mem_groupAnswers {answers : List String} {k : String} {g : List String} :
    (k, g) ∈ groupAnswers answers ↔
      k ∈ answers.map keyOf ∧ g = answers.filter (fun x => decide (keyOf x = k)) := by
  rw [(groupAnswers_perm answers).mem_iff, groupAnswersRaw_struct, List.mem_map]
  constructor
  · rintro ⟨k2, hk2, heq⟩
    obtain ⟨h1, h2⟩ := Prod.mk.injEq .. ▸ heq
    subst h1
    exact ⟨mem_firstKeys.mp hk2, h2.symm⟩
  · rintro ⟨hmem, rfl⟩
    exact ⟨k, mem_firstKeys.mpr hmem, rfl⟩

lemma groupAnswers_keys_nodup (answers : List String) :
    ((groupAnswers answers).map Prod.fst).Nodup := by
  have hperm := (groupAnswers_perm answers).map Prod.fst
  rw [hperm.nodup_iff, groupAnswersRaw_struct, List.map_map]
  have : (Prod.fst ∘ fun k => (k, answers.filter (fun x => decide (keyOf x = k)))) = id := by
    funext k
    rfl
  rw [this, List.map_id]
  exact firstKeys_nodup answers

lemma groupAnswers_sorted (answers : List String) :
    (groupAnswers answers).Sorted keyLE :=
  List.sorted_insertionSort keyLE _

lemma count_flatten_map (L : List (List String)) (a : String) :
    (L.flatten).count a = (L.map (fun l => l.count a)).sum := by
  induction L with
  | nil => rfl
  | cons l L ih => simp [List.count_append, ih]

lemma count_filter_key (l : List String) (a k : String) :
    (l.filter (fun x => decide (keyOf x = k))).count a =
      if keyOf a = k then l.count a else 0 := by
  induction l with
  | nil => simp
  | cons x t ih =>
    rw [List.filter_cons]
    by_cases hx : keyOf x = k
    · rw [if_pos (by simpa using hx)]
      by_cases hak : keyOf a = k
      · rw [List.count_cons, List.count_cons, ih, if_pos hak, if_pos hak]
      · have hax : a ≠ x := by rintro rfl; exact hak hx
        rw [List.count_cons, ih, if_neg hak, if_neg hak]
        simp [Ne.symm hax]
    · rw [if_neg (by simpa using hx), ih]
      by_cases hak : keyOf a = k
      · have hax : a ≠ x := by rintro rfl; exact hx hak
        rw [if_pos hak, if_pos hak, List.count_cons]
        simp [Ne.symm hax]
      · rw [if_neg hak, if_neg hak]

lemma sum_single_key : ∀ (ks : List String), ks.Nodup → ∀ (k : String), k ∈ ks →
    ∀ (v : ℕ), (ks.map (fun k2 => if k = k2 then v else 0)).sum = v := by
  intro ks
  induction ks with
  | nil => intro _ k hk; simp at hk
  | cons k1 rest ih =>
    intro hnd k hk v
    obtain ⟨h1, h2⟩ := List.nodup_cons.mp hnd
    rw [List.map_cons, List.sum_cons]
    rcases List.mem_cons.mp hk with rfl | hmem
    · rw [if_pos rfl]
      have : (rest.map (fun k2 => if k = k2 then v else 0)).sum = 0 := by
        apply List.sum_eq_zero
        intro x hx
        obtain ⟨k2, hk2, rfl⟩ := List.mem_map.mp hx
        rw [if_neg (by rintro rfl; exact h1 hk2)]
      omega
    · rw [if_neg (by rintro rfl; exact h1 hmem), ih h2 k hmem v]
      omega

lemma groupAnswers_count (answers : List String) (a : String) :
    (((groupAnswers answers).map Prod.snd).flatten).count a = answers.count a := by
  have hperm := (groupAnswers_perm answers).map Prod.snd
  rw [count_flatten_map, hperm.map (fun l => l.count a) |>.sum_eq]
  rw [← count_flatten_map, groupAnswersRaw_struct, List.map_map]
  have hcomp : (Prod.snd ∘ fun k => (k, answers.filter (fun x => decide (keyOf x = k)))) =
      fun k => answers.filter (fun x => decide (keyOf x = k)) := by
    funext k
    rfl
  rw [hcomp, count_flatten_map, List.map_map]
  have hpt : ((fun l => l.count a) ∘ fun k => answers.filter (fun x => decide (keyOf x = k))) =
      fun k => if keyOf a = k then answers.count a else 0 := by
    funext k
    exact count_filter_key answers a k
  rw [hpt]
  by_cases hmem : a ∈ answers
  · exact sum_single_key _ (firstKeys_nodup answers) _
      (mem_firstKeys.mpr (List.mem_map.mpr ⟨a, hmem, rfl⟩)) _
  · have hz : answers.count a = 0 := List.count_eq_zero.mpr hmem
    rw [hz]
    apply List.sum_eq_zero
    intro x hx
    obtain ⟨k2, _, rfl⟩ := List.mem_map.mp hx
    split <;> rfl

lemma splitFirstSpace_none : ∀ {cs : List Char}, ' ' ∉ cs → splitFirstSpace cs = none := by
  intro cs
  induction cs with
  | nil => intro _; rfl
  | cons c cs ih =>
    intro h
    rw [splitFirstSpace, if_neg (by rintro rfl; exact h (List.mem_cons_self _ _)),
      ih (fun hm => h (List.mem_cons_of_mem _ hm))]
    rfl

lemma splitFirstSpace_app : ∀ (pre : List Char), ' ' ∉ pre → ∀ (suf : List Char),
    splitFirstSpace (pre ++ ' ' :: suf) = some (pre, suf) := by
  intro pre
  induction pre with
  | nil => intro _ suf; simp [splitFirstSpace]
  | cons c pre ih =>
    intro h suf
    rw [List.cons_append, splitFirstSpace,
      if_neg (by rintro rfl; exact h (List.mem_cons_self _ _)),
      ih (fun hm => h (List.mem_cons_of_mem _ hm)) suf]
    rfl

lemma keyOf_no_space {ans : String} (h : ' ' ∉ ans.data) : keyOf ans = sentinelGroup := by
  unfold keyOf
  rw [splitFirstSpace_none h]

lemma keyOf_with_space {ans : String} {pre suf : List Char}
    (hd : ans.data = pre ++ ' ' :: suf) (h : ' ' ∉ pre) : keyOf ans = String.mk pre := by
  unfold keyOf
  rw [hd, splitFirstSpace_app pre h suf]


lemma pyInsert_nodup {acc : List String} {t : String} (h : acc.Nodup) :
    (pyInsert acc t).Nodup := by
  unfold pyInsert
  split
  · exact h
  · rename_i hnin
    simp [List.nodup_append, h, hnin]

lemma foldlM_symptoms_nodup :
    ∀ (items : List JVal) (acc : List String), acc.Nodup →
      ∀ c, items.foldlM (fun (acc : List String) it =>
        (itemSymptomText it).map (fun t =>
          if t ≠ "" ∧ t ≠ treatmentLabel then pyInsert acc t else acc)) acc = some c →
      c.Nodup := by
  intro items
  induction items with
  | nil =>
    intro acc h c hc
    simp only [List.foldlM_nil] at hc
    rwa [← Option.some.inj hc]
  | cons it rest ih =>
    intro acc h c hc
    rw [List.foldlM_cons] at hc
    cases hst : itemSymptomText it with
    | none =>
      rw [hst] at hc
      exact Option.noConfusion hc
    | some t =>
      rw [hst] at hc
      refine ih _ ?_ c hc
      show (if t ≠ "" ∧ t ≠ treatmentLabel then pyInsert acc t else acc).Nodup
      split
      · exact pyInsert_nodup h
      · exact h

lemma extract_nodup (df : List (Option String)) :
    ∀ c ∈ extractSymptomCombinations df, c.Nodup := by
  intro c hc
  unfold extractSymptomCombinations at hc
  obtain ⟨row, _, hrow⟩ := List.mem_filterMap.mp hc
  unfold rowCombo at hrow
  split at hrow
  · exact Option.noConfusion hrow
  · rename_i c2 hs
    by_cases hlen : 1 < c2.length
    · rw [if_pos hlen] at hrow
      rw [← Option.some.inj hrow]
      unfold rowSymptomsSet at hs
      cases hitems : rowItems row with
      | none => rw [hitems] at hs; exact Option.noConfusion hs
      | some items =>
        rw [hitems] at hs
        exact foldlM_symptoms_nodup items [] List.nodup_nil c2 hs
    · rw [if_neg hlen] at hrow
      exact Option.noConfusion hrow

/-- C1: for every dataset and distinct symptoms `A`, `B`, the co-occurrence
matrix entry `(A, B)` equals the number of qualifying records (parsed records
with more than one distinct non-treatment symptom) whose symptom set contains
both `A` and `B`; and on the three records with symptom sets `{A,B}`, `{A,B}`,
`{A,C}` the pipeline `extract_symptom_combinations` followed by
`calculate_symptom_cooccurrence` yields `M[A][B] = M[B][A] = 2`,
`M[A][C] = M[C][A] = 1`, `M[B][C] = 0`, and `find_most_related_symptoms` with
`top_n = 5` maps `A` to `[(B, 2), (C, 1)]`. -/
theorem C1_cooccurrence_counts :
    (∀ (df : List (Option String)) (A B : String), A ≠ B →
      coocEntry (extractSymptomCombinations df) A B =
        ((extractSymptomCombinations df).filter
          (fun c => decide (A ∈ c ∧ B ∈ c))).length) ∧
    coocEntry (extractSymptomCombinations df3) "A" "B" = 2 ∧
    coocEntry (extractSymptomCombinations df3) "B" "A" = 2 ∧
    coocEntry (extractSymptomCombinations df3) "A" "C" = 1 ∧
    coocEntry (extractSymptomCombinations df3) "C" "A" = 1 ∧
    coocEntry (extractSymptomCombinations df3) "B" "C" = 0 ∧
    ("A", [("B", 2), ("C", 1)]) ∈
      findMostRelated (matrixIndex (extractSymptomCombinations df3))
        (coocEntry (extractSymptomCombinations df3)) 5 :=
  ⟨fun df A B hab => coocEntry_count _ (extract_nodup df) A B hab,
    by decide, by decide, by decide, by decide, by decide, by decide⟩

/-- Witness for C1 at the concrete example dataset. -/
theorem C1_cooccurrence_counts_witness :
    "A" ≠ "C" ∧
    coocEntry (extractSymptomCombinations df3) "A" "C" =
      ((extractSymptomCombinations df3).filter
        (fun c => decide ("A" ∈ c ∧ "C" ∈ c))).length :=
  ⟨by decide, C1_cooccurrence_counts.1 df3 "A" "C" (by decide)⟩

/-- C2: for every list of symptom sets given to
`calculate_symptom_cooccurrence` the matrix is symmetric, its diagonal is
zero, every cell is the sum of the per-record increment contributions, and a
record set (duplicate-free, as Python sets are) with `k ≥ 2` distinct symptoms
contributes exactly `k * (k - 1)` increments of 1 to the matrix in total (one
per ordered pair of distinct symptoms). -/
theorem C2_matrix_symmetric_diag_increments :
    ∀ (combos : List (List String)) (a b : String),
      coocEntry combos a b = coocEntry combos b a ∧
      coocEntry combos a a = 0 ∧
      coocEntry combos a b = (combos.map (fun c => comboInc c a b)).sum ∧
      ∀ c ∈ combos, c.Nodup → 2 ≤ c.length →
        (c.map (fun x => (c.map (fun y => comboInc c x y)).sum)).sum =
          c.length * (c.length - 1) :=
  fun combos a b =>
    ⟨coocEntry_comm combos a b, coocEntry_diag combos a,
      coocEntry_eq_sum combos a b, fun c _ hnd _ => comboInc_total c hnd⟩

/-- Witness for C2 at the concrete example dataset. -/
theorem C2_matrix_symmetric_diag_increments_witness :
    coocEntry (extractSymptomCombinations df3) "A" "B" =
      coocEntry (extractSymptomCombinations df3) "B" "A" ∧
    ["A", "B"] ∈ extractSymptomCombinations df3 ∧
    (["A", "B"] : List String).Nodup ∧
    2 ≤ (["A", "B"] : List String).length ∧
    ((["A", "B"] : List String).map (fun x =>
      ((["A", "B"] : List String).map (fun y => comboInc ["A", "B"] x y)).sum)).sum =
        (["A", "B"] : List String).length * ((["A", "B"] : List String).length - 1) :=
  ⟨(C2_matrix_symmetric_diag_increments (extractSymptomCombinations df3) "A" "B").1,
    by decide, by decide, by decide,
    (C2_matrix_symmetric_diag_increments (extractSymptomCombinations df3) "A" "B").2.2.2
      ["A", "B"] (by decide) (by decide) (by decide)⟩

/-- C3: for every co-occurrence matrix (an index together with a cell
function), every `top_n` and every symptom, the per-symptom list built by
`find_most_related_symptoms` never contains the symptom itself, contains only
positive counts, has at most `top_n` entries, is sorted descending by count,
keeps tied counts in the matrix column iteration order (for each count value
it is a sublist of the filtered column), is the list the function associates
to the symptom, and is empty when the symptom has no positive co-occurrence
count. -/
theorem C3_relation_ranker :
    ∀ (index : List String) (M : String → String → ℕ) (top_n : ℕ) (s : String),
      (∀ p ∈ relatedTop index M top_n s, p.1 ≠ s ∧ 0 < p.2) ∧
      (relatedTop index M top_n s).length ≤ top_n ∧
      (relatedTop index M top_n s).Sorted countGE ∧
      (∀ c : ℕ, List.Sublist
        ((relatedTop index M top_n s).filter (fun p => decide (p.2 = c)))
        ((relatedPre index M s).filter (fun p => decide (p.2 = c)))) ∧
      (s ∈ index → (s, relatedTop index M top_n s) ∈ findMostRelated index M top_n) ∧
      ((∀ o ∈ index, M o s = 0 ∨ o = s) → relatedTop index M top_n s = []) := by
  intro index M top_n s
  refine ⟨?_, ?_, ?_, ?_, ?_, ?_⟩
  · intro p hp
    have h1 : p ∈ relatedSorted index M s := List.take_subset _ _ hp
    have h2 : p ∈ relatedPre index M s :=
      (List.perm_insertionSort countGE _).mem_iff.mp h1
    have h3 := (List.mem_filter.mp h2).2
    have h4 := of_decide_eq_true h3
    exact ⟨h4.2, h4.1⟩
  · exact (List.length_take _ _).le.trans (min_le_left _ _)
  · exact List.Pairwise.sublist (List.take_sublist _ _)
      (List.sorted_insertionSort countGE _)
  · intro c
    have h1 := List.Sublist.filter (fun p : String × ℕ => decide (p.2 = c))
      (List.take_sublist top_n (relatedSorted index M s))
    rwa [show relatedSorted index M s = List.insertionSort countGE (relatedPre index M s)
      from rfl, insertionSort_filter_count] at h1
  · intro hs
    exact List.mem_map.mpr ⟨s, hs, rfl⟩
  · intro hz
    have hpre : relatedPre index M s = [] := by
      unfold relatedPre
      rw [List.filter_eq_nil_iff]
      intro p hp
      obtain ⟨o, ho, rfl⟩ := List.mem_map.mp hp
      simp only [decide_eq_true_eq, not_and]
      intro hpos
      rcases hz o ho with h0 | h0
      · exact absurd hpos (by omega)
      · exact fun hne => hne h0
    unfold relatedTop relatedSorted
    rw [hpre]
    simp [List.insertionSort]

/-- Witness for C3 at the concrete example matrix. -/
theorem C3_relation_ranker_witness :
    (("B", 2).1 ≠ "A" ∧ 0 < ("B", 2).2) ∧
    relatedTop (matrixIndex (extractSymptomCombinations df3))
      (coocEntry (extractSymptomCombinations df3)) 5 "Z" = [] :=
  ⟨(C3_relation_ranker (matrixIndex (extractSymptomCombinations df3))
      (coocEntry (extractSymptomCombinations df3)) 5 "A").1 ("B", 2) (by decide),
    (C3_relation_ranker (matrixIndex (extractSymptomCombinations df3))
      (coocEntry (extractSymptomCombinations df3)) 5 "Z").2.2.2.2.2 (by decide)⟩

/-- C4: `calculate_symptom_similarity` excludes symptoms whose concatenated
answer text is empty from both the output matrix index and the vocabulary
(they are not zero rows), and when fewer than 2 symptoms have a non-empty
answer text it returns the empty matrix (a value, not an error). -/
theorem C4_similarity_excludes_empty :
    ∀ (symptoms : List String) (df : List (Option String)),
      ((validSymptoms symptoms df).length < 2 → simIndex symptoms df = []) ∧
      (∀ s ∈ simIndex symptoms df, s ∈ symptoms ∧ symptomAnswerText s df ≠ "") ∧
      (∀ s : String, symptomAnswerText s df = "" → s ∉ simIndex symptoms df) ∧
      (∀ t ∈ vocabOf symptoms df, ∃ s ∈ validSymptoms symptoms df,
        t ∈ tokenize (symptomAnswerText s df)) := by
  intro symptoms df
  refine ⟨?_, ?_, ?_, ?_⟩
  · intro h
    unfold simIndex
    rw [if_pos h]
  · intro s hs
    exact mem_validSymptoms.mp (simIndex_subset hs)
  · intro s hempty hmem
    exact (mem_validSymptoms.mp (simIndex_subset hmem)).2 hempty
  · intro t ht
    exact mem_vocabOf.mp ht

/-- Witness for C4 at concrete datasets. -/
theorem C4_similarity_excludes_empty_witness :
    simIndex ["s1"] dfC5 = [] ∧
    ("s1" ∈ ["s1", "s2"] ∧ symptomAnswerText "s1" dfC5 ≠ "") ∧
    "zz" ∉ simIndex ["s1", "s2", "zz"] dfC5 :=
  ⟨(C4_similarity_excludes_empty ["s1"] dfC5).1 (by decide),
    (C4_similarity_excludes_empty ["s1", "s2"] dfC5).2.1 "s1" (by decide),
    (C4_similarity_excludes_empty ["s1", "s2", "zz"] dfC5).2.2.1 "zz" (by decide)⟩

/-- C5 counterexample: on `dfC5` the symptom `s1` qualifies (its concatenated
answer text is the non-empty `-`), yet its answer text contains no word token,
so its count vector is zero; sklearn cosine similarity maps a zero-norm row to
0, hence the diagonal entry of the qualifying symptom `s1` is 0, not 1.0, and
the claim that every qualifying diagonal entry equals 1.0 is false. -/
theorem C5_diagonal_counterexample :
    "s1" ∈ simIndex ["s1", "s2"] dfC5 ∧
    simEntry ["s1", "s2"] dfC5 "s1" "s1" ≠ 1 := by
  constructor
  · decide
  · have hv : vecOf ["s1", "s2"] dfC5 "s1" = [0] := by decide
    unfold simEntry cosineSim
    rw [hv]
    have hd : dotN [0] [0] = 0 := rfl
    rw [hd]
    norm_num

/-- C5 (amended): every similarity value lies in `[0, 1]` and the matrix is
symmetric; the diagonal entry of a qualifying symptom equals 1.0 provided its
concatenated answer text contains at least one word token (a nonzero count
vector) — with a zero-token document the diagonal is 0 instead, see the
counterexample. -/
theorem C5_similarity_bounds_amended :
    ∀ (symptoms : List String) (df : List (Option String)) (s t : String),
      0 ≤ simEntry symptoms df s t ∧ simEntry symptoms df s t ≤ 1 ∧
      simEntry symptoms df s t = simEntry symptoms df t s ∧
      (s ∈ simIndex symptoms df → tokenize (symptomAnswerText s df) ≠ [] →
        simEntry symptoms df s s = 1) := by
  intro symptoms df s t
  refine ⟨cosineSim_nonneg _ _, cosineSim_le_one _ _, cosineSim_comm _ _, ?_⟩
  intro hs ht
  exact cosineSim_self _ (vec_self_ne_zero (simIndex_subset hs) ht)

/-- Witness for C5 at concrete datasets: the diagonal of `s2`, whose document
has tokens, is 1, and so is the diagonal of the Thai symptom `ปวดหัว`, whose
Thai answer text tokenizes to a non-empty token list under the Unicode-aware
word class. -/
theorem C5_similarity_bounds_amended_witness :
    simEntry ["s1", "s2"] dfC5 "s2" "s2" = 1 ∧
    simEntry ["ปวดหัว", "ไอ"] dfThai "ปวดหัว" "ปวดหัว" = 1 :=
  ⟨(C5_similarity_bounds_amended ["s1", "s2"] dfC5 "s2" "s2").2.2.2
      (by decide) (by decide),
    (C5_similarity_bounds_amended ["ปวดหัว", "ไอ"] dfThai "ปวดหัว" "ปวดหัว").2.2.2
      (by decide) (by decide)⟩

/-- C6: a row whose summary is the malformed text `{not json` is skipped by
every extraction function — inserting it anywhere in the dataset changes
nothing in `extract_symptom_combinations`, `extract_all_symptoms`,
`get_answers_by_symptom`, `get_treatment_answers` or any component of
`calculate_symptom_similarity` (valid symptoms, matrix index, vocabulary and
entries), and no exception propagates (the functions stay total). -/
theorem C6_malformed_row_skipped :
    ∀ (pre post : List (Option String)) (symptom : String) (syms : List String)
      (s t : String),
      extractSymptomCombinations (pre ++ some badRow :: post) =
        extractSymptomCombinations (pre ++ post) ∧
      extractAllSymptoms (pre ++ some badRow :: post) =
        extractAllSymptoms (pre ++ post) ∧
      getAnswersBySymptom symptom (pre ++ some badRow :: post) =
        getAnswersBySymptom symptom (pre ++ post) ∧
      getTreatmentAnswers (pre ++ some badRow :: post) =
        getTreatmentAnswers (pre ++ post) ∧
      validSymptoms syms (pre ++ some badRow :: post) =
        validSymptoms syms (pre ++ post) ∧
      simIndex syms (pre ++ some badRow :: post) = simIndex syms (pre ++ post) ∧
      vocabOf syms (pre ++ some badRow :: post) = vocabOf syms (pre ++ post) ∧
      simEntry syms (pre ++ some badRow :: post) s t =
        simEntry syms (pre ++ post) s t := by
  intro pre post symptom syms s t
  refine ⟨?_, ?_, ?_, ?_, validSymptoms_skip pre post syms, ?_, vocabOf_skip pre post syms, ?_⟩
  · unfold extractSymptomCombinations
    rw [List.map_append, List.map_append, List.map_cons, List.filterMap_append,
      List.filterMap_append, List.filterMap_cons]
    simp [rowCombo_badRow]
  · unfold extractAllSymptoms
    rw [List.filterMap_append, List.filterMap_append, List.filterMap_cons]
    simp [List.flatten_append, rowAllTexts_badRow]
  · unfold getAnswersBySymptom
    rw [List.filterMap_append, List.filterMap_append, List.filterMap_cons]
    simp [List.flatten_append, rowAnswers_badRow]
  · unfold getTreatmentAnswers
    rw [List.filterMap_append, List.filterMap_append, List.filterMap_cons]
    simp [List.flatten_append, rowTreatment_badRow]
  · unfold simIndex
    rw [validSymptoms_skip]
  · unfold simEntry
    rw [vecOf_skip, vecOf_skip]

/-- C7 counterexample: the analysis pipeline entered through
`analyze_symptoms` performs no typo replacement — on a record containing the
label `ประวัติ ATK`, symptom extraction on that path still yields the typo
label, while the `load_data` path yields the canonical spelling; hence the
replacement does not happen before extraction on every record-parsing path. -/
theorem C7_analyze_path_counterexample :
    (∃ c ∈ extractSymptomCombinations [some rowTypo], typoLabel ∈ c) ∧
    (∀ c ∈ extractSymptomCombinations (loadSummaries [some rowTypo]), typoLabel ∉ c) ∧
    (∃ c ∈ extractSymptomCombinations (loadSummaries [some rowTypo]), canonLabel ∈ c) :=
  ⟨by decide, by decide, by decide⟩

/-- C7 (amended): the replacement of `ประวัติ ATK` by `ประวัติATK` is applied
to the raw summary before extraction in `load_data` and in
`standardize_data`, but the `analyze_symptoms` path applies no replacement; on
any dataset whose summaries do not contain the typo the `load_data`
preparation coincides with the `analyze_symptoms` preparation (and
`standardize_data` is the identity), so extraction agrees — while on datasets
containing the typo the paths differ (see the counterexample). -/
theorem C7_typo_normalization_amended :
    ∀ (df : List (Option String)),
      (∀ cell ∈ df, containsPat typoLabel.data (fillnaCell cell).data = false) →
      loadSummaries df = analyzeSummaries df ∧
      extractSymptomCombinations (loadSummaries df) = extractSymptomCombinations df ∧
      standardizeSummaries df = df := by
  intro df h
  have hcell : ∀ cell ∈ df, pyReplace (fillnaCell cell) typoLabel canonLabel = fillnaCell cell :=
    fun cell hc => pyReplace_not_contains _ _ _ (h cell hc)
  refine ⟨?_, ?_, ?_⟩
  · unfold loadSummaries analyzeSummaries
    exact List.map_congr_left fun cell hc => by rw [hcell cell hc]
  · unfold extractSymptomCombinations loadSummaries
    rw [List.map_map]
    congr 1
    refine List.map_congr_left fun cell hc => ?_
    show fillnaCell (some (pyReplace (fillnaCell cell) typoLabel canonLabel)) = fillnaCell cell
    rw [show ∀ x : String, fillnaCell (some x) = x from fun _ => rfl, hcell cell hc]
  · unfold standardizeSummaries
    have hpt : ∀ cell ∈ df,
        Option.map (fun s => pyReplace s typoLabel canonLabel) cell = cell := by
      intro cell hc
      cases cell with
      | none => rfl
      | some r =>
        have h2 := hcell (some r) hc
        rw [show fillnaCell (some r) = r from rfl] at h2
        show some (pyReplace r typoLabel canonLabel) = some r
        rw [h2]
    calc df.map (Option.map (fun s => pyReplace s typoLabel canonLabel))
        = df.map id := List.map_congr_left hpt
      _ = df := List.map_id df

/-- Witness for C7 on a concrete typo-free dataset. -/
theorem C7_typo_normalization_amended_witness :
    loadSummaries [some rowAB, none] = analyzeSummaries [some rowAB, none] ∧
    extractSymptomCombinations (loadSummaries [some rowAB, none]) =
      extractSymptomCombinations [some rowAB, none] ∧
    standardizeSummaries [some rowAB, none] = [some rowAB, none] :=
  C7_typo_normalization_amended [some rowAB, none] (by decide)

/-- C8: `extract_all_symptoms` returns a duplicate-free list sorted in
codepoint-lexicographic order, in which every symptom is non-empty, is not the
treatment-history label, and is recorded in at least one row by an item whose
stripped text is that symptom and which has at least one answer that is
non-empty after trimming. -/
theorem C8_extract_all_symptoms :
    ∀ (df : List (Option String)),
      (extractAllSymptoms df).Sorted strLe ∧
      (extractAllSymptoms df).Nodup ∧
      ∀ s ∈ extractAllSymptoms df,
        s ≠ "" ∧ s ≠ treatmentLabel ∧
        ∃ row : String, some row ∈ df ∧ rowHasSymptomWithAnswer s row = true := by
  intro df
  refine ⟨sortStr_sorted _, sortStr_nodup (List.nodup_dedup _), ?_⟩
  intro s hs
  obtain ⟨row, hrow, hmem⟩ := mem_extractAllSymptoms hs
  obtain ⟨h1, h2, h3⟩ := rowHas_of_mem hmem
  exact ⟨h1, h2, row, hrow, h3⟩

/-- Witness for C8 at the concrete dataset. -/
theorem C8_extract_all_symptoms_witness :
    "s1" ≠ "" ∧ "s1" ≠ treatmentLabel ∧
    ∃ row : String, some row ∈ dfC5 ∧ rowHasSymptomWithAnswer "s1" row = true :=
  (C8_extract_all_symptoms dfC5).2.2 "s1" (by decide)

/-- C9: `group_answers` maps each answer containing a space to the group
labelled by the text before its first space and each answer without a space to
the sentinel group; the groups are exactly the in-order filters of the input
by group key, every answer lands in its key's group, group labels are distinct
and sorted ascending, the multiset of grouped answers equals the input, and
the example input yields the example grouping. -/
theorem C9_group_answers :
    ∀ (answers : List String),
      (∀ (ans : String) (pre suf : List Char), ans.data = pre ++ ' ' :: suf →
        ' ' ∉ pre → keyOf ans = String.mk pre) ∧
      (∀ ans : String, ' ' ∉ ans.data → keyOf ans = sentinelGroup) ∧
      (∀ (k : String) (g : List String), (k, g) ∈ groupAnswers answers ↔
        k ∈ answers.map keyOf ∧
          g = answers.filter (fun x => decide (keyOf x = k))) ∧
      (∀ a ∈ answers,
        (keyOf a, answers.filter (fun x => decide (keyOf x = keyOf a))) ∈
          groupAnswers answers) ∧
      ((groupAnswers answers).map Prod.fst).Nodup ∧
      (groupAnswers answers).Sorted keyLE ∧
      (∀ a : String,
        (((groupAnswers answers).map Prod.snd).flatten).count a = answers.count a) ∧
      groupAnswers ["ปวด ศีรษะมาก", "เครียด"] =
        [("ปวด", ["ปวด ศีรษะมาก"]), ("อื่นๆ", ["เครียด"])] := by
  intro answers
  refine ⟨fun ans pre suf hd h => keyOf_with_space hd h,
    fun ans h => keyOf_no_space h,
    fun k g => mem_groupAnswers, ?_,
    groupAnswers_keys_nodup _, groupAnswers_sorted _,
    fun a => groupAnswers_count _ _, by decide⟩
  intro a ha
  exact mem_groupAnswers.mpr ⟨List.mem_map.mpr ⟨a, ha, rfl⟩, rfl⟩

/-- Witness for C9 at the example answers. -/
theorem C9_group_answers_witness :
    keyOf "ปวด ศีรษะมาก" = String.mk "ปวด".data ∧
    keyOf "เครียด" = sentinelGroup ∧
    ("อื่นๆ", ["เครียด"]) ∈ groupAnswers ["ปวด ศีรษะมาก", "เครียด"] :=
  ⟨(C9_group_answers []).1 "ปวด ศีรษะมาก" "ปวด".data "ศีรษะมาก".data
      (by decide) (by decide),
    (C9_group_answers []).2.1 "เครียด" (by decide),
    (C9_group_answers ["ปวด ศีรษะมาก", "เครียด"]).2.2.2.1 "เครียด"
      (by decide)⟩

/-- C10: the co-occurrence matrix can contain a symptom that
`extract_all_symptoms` omits: `extract_symptom_combinations` admits a symptom
whenever its stripped text is non-empty and not the treatment label, without
requiring any non-empty answer, whereas `extract_all_symptoms` requires one —
on the example dataset, whose records carry no answers, `A` is in the matrix
index with a positive count against `B` yet is absent from
`extract_all_symptoms`. -/
theorem C10_matrix_symptom_not_in_extract :
    "A" ∈ matrixIndex (extractSymptomCombinations df3) ∧
    0 < coocEntry (extractSymptomCombinations df3) "A" "B" ∧
    "A" ∉ extractAllSymptoms df3 :=
  ⟨by decide, by decide, by decide⟩
